import Mathlib

/-!
Shallow embedding of the flocking core in `src/FlockingBehavior/Flocker.h`
(struct `Boid`, class `Flocker`) over exact rational arithmetic.

Modelling conventions:

* `float` values are idealised as `ℚ`; float literals such as `0.1f`,
  `3.5`, `0.001f` become the exact rationals `1/10`, `7/2`, `1/1000`.
* The square root (`std::sqrt`, and `glm::length v = sqrt (dot v v)`)
  is irrational in general, so every definition that the source computes
  with a square root takes an explicit parameter `sq : ℚ → ℚ` standing
  for the float square-root routine.  Theorems assume pointwise
  correctness of `sq` (`0 ≤ sq a` and `sq a ^ 2 = a`) at exactly the
  values the code takes square roots of; concrete witnesses use the
  finite table `sqW` below, which is exact at every value that occurs
  in their traces.
* `cosf(TWO_PI * FOVAngleDeg / 360.0f)` (line 108) is transcendental;
  `update` takes the computed compare value as a parameter `cosv : ℚ`
  and stores it in the `FOVAngleDegCompareValue` field, exactly as the
  source caches it.
* `getRandomUniform(eng)` draws are modelled by a parameter
  `rnd : ℕ → Vec3` giving the k-th draw of a `updateBoid` call (and
  `rnd : ℕ → ℕ → Vec3`, boid index first, for a whole acceleration
  pass); no claim depends on the drawn values.
* The externally owned `std::vector<Boid>` is a `List Boid`; the boid
  pointers stored in the voxel cache and in `NearbyBoid` records become
  indices into that list, and the pointer comparison `(&b) != test`
  becomes index inequality.
* `glm::vec3` division `x / 0.0f` does not occur in the modelled flows:
  the voxel cell size is only zero when `PerceptionRadius = 0`, which
  `updateAcceleration` (lines 125-127) rules out before any query runs;
  theorems about the queries therefore carry a `PerceptionRadius ≠ 0`
  hypothesis.
-/

/-- Component-wise exact 3-vector, the model of `glm::vec3`. -/
structure Vec3 where
  x : ℚ
  y : ℚ
  z : ℚ
deriving DecidableEq

namespace Vec3

/-- Component-wise addition (`glm::vec3` operator `+`). -/
def add (a b : Vec3) : Vec3 := ⟨a.x + b.x, a.y + b.y, a.z + b.z⟩

/-- Component-wise subtraction (`glm::vec3` operator `-`). -/
def sub (a b : Vec3) : Vec3 := ⟨a.x - b.x, a.y - b.y, a.z - b.z⟩

/-- Component-wise negation (unary `-`). -/
def neg (a : Vec3) : Vec3 := ⟨-a.x, -a.y, -a.z⟩

/-- Scalar multiple (`s * v` and `v * s` on `glm::vec3`). -/
def smul (c : ℚ) (a : Vec3) : Vec3 := ⟨c * a.x, c * a.y, c * a.z⟩

/-- Dot product (`glm::dot`). -/
def dot (a b : Vec3) : ℚ := a.x * b.x + a.y * b.y + a.z * b.z

/-- Cross product (`glm::cross`). -/
def cross (a b : Vec3) : Vec3 :=
  ⟨a.y * b.z - a.z * b.y, a.z * b.x - a.x * b.z, a.x * b.y - a.y * b.x⟩

/-- Squared length (`glm::length2`). -/
def length2 (a : Vec3) : ℚ := dot a a

/-- The zero vector (`glm::vec3(0)`). -/
def zero : Vec3 := ⟨0, 0, 0⟩

end Vec3

/-- Length of a vector (`glm::length v = sqrt (dot v v)`), with the
square-root routine passed explicitly. -/
def lengthV (sq : ℚ → ℚ) (v : Vec3) : ℚ := sq (Vec3.length2 v)

/-- Unit vector (`glm::normalize v = v * inversesqrt (dot v v)`). -/
def normalizeV (sq : ℚ → ℚ) (v : Vec3) : Vec3 :=
  Vec3.smul (1 / lengthV sq v) v

/-- Model of `clampLength` (Flocker.h lines 16-22): if the length of `v`
exceeds `length`, rescale `v` to that length, else return it unchanged. -/
def clampLength (sq : ℚ → ℚ) (v : Vec3) (length : ℚ) : Vec3 :=
  if length < lengthV sq v then Vec3.smul length (normalizeV sq v) else v

/-- The `DistanceType` enum (Flocker.h lines 12-14). -/
inductive DistanceType where
  | LINEAR
  | INVERSE_LINEAR
  | QUADRATIC
  | INVERSE_QUADRATIC
deriving DecidableEq

/-- Model of `Flocker::transformDistance` (lines 315-332). -/
def transformDistance (distance : ℚ) (t : DistanceType) : ℚ :=
  match t with
  | DistanceType.LINEAR => distance
  | DistanceType.INVERSE_LINEAR => if distance = 0 then 0 else 1 / distance
  | DistanceType.QUADRATIC => distance ^ 2
  | DistanceType.INVERSE_QUADRATIC =>
      if distance ^ 2 = 0 then 0 else 1 / distance ^ 2

/-- Model of `struct Boid` (lines 44-52). -/
structure Boid where
  position : Vec3
  velocity : Vec3
  acceleration : Vec3
  motion_normal : Vec3
  size : ℚ
  avoidance : Bool
deriving DecidableEq

/-- The `Boid(pos, vel)` constructor with the in-class defaults:
acceleration `vec3(0)`, motion normal `vec3(0,0,1)`, size `1`,
avoidance flag clear. -/
def mkBoid (pos vel : Vec3) : Boid :=
  { position := pos, velocity := vel, acceleration := Vec3.zero,
    motion_normal := ⟨0, 0, 1⟩, size := 1, avoidance := false }

/-- Model of `struct NearbyBoid` (lines 56-60); the `Boid*` field is an
index into the externally owned boid list. -/
structure NearbyBoid where
  boid : ℕ
  direction : Vec3
  distance : ℚ
deriving DecidableEq

/-- The tunable state of `class Flocker` (lines 73-98) together with the
cached `FOVAngleDegCompareValue` (line 157).  The boid list is external
(passed separately), matching the non-owning `std::vector<Boid>*`. -/
structure Flocker where
  PerceptionRadius : ℚ
  SeparationWeight : ℚ
  SeparationType : DistanceType
  AlignmentWeight : ℚ
  CohesionWeight : ℚ
  SteeringWeight : ℚ
  SteeringTargets : List Vec3
  SteeringTargetType : DistanceType
  FOVAngleDeg : ℚ
  MaxAcceleration : ℚ
  MaxVelocity : ℚ
  CollisionRadius : ℚ
  CollisionCenter : Vec3
  FOVAngleDegCompareValue : ℚ
deriving DecidableEq

/-- The in-class default member initialisers of `Flocker`
(lines 76-96): perception 30, separation 3.5 / INVERSE_QUADRATIC,
alignment 0.1, cohesion 1, steering 4.0 / LINEAR with no targets,
FOV 20 degrees, max acceleration 5, max velocity 5, collision sphere of
radius 1 at the origin, compare value initially 0. -/
def defaultFlocker : Flocker :=
  { PerceptionRadius := 30
    SeparationWeight := 7/2
    SeparationType := DistanceType.INVERSE_QUADRATIC
    AlignmentWeight := 1/10
    CohesionWeight := 1
    SteeringWeight := 4
    SteeringTargets := []
    SteeringTargetType := DistanceType.LINEAR
    FOVAngleDeg := 20
    MaxAcceleration := 5
    MaxVelocity := 5
    CollisionRadius := 1
    CollisionCenter := Vec3.zero
    FOVAngleDegCompareValue := 0 }

/-- Element access into the external boid list (a `Boid*` dereference). -/
def boidAt (bs : List Boid) (i : ℕ) : Boid :=
  bs.getD i (mkBoid Vec3.zero Vec3.zero)

/-- Truncation toward zero, the behaviour of `static_cast<int>` on a
float (Flocker.h lines 146-148). -/
def truncQ (q : ℚ) : ℤ := if 0 ≤ q then ⌊q⌋ else ⌈q⌉

/-- Model of `Flocker::getVoxelForBoid` (lines 142-150): component-wise
truncated division of the position by `|PerceptionRadius|`. -/
def getVoxelForBoid (R : ℚ) (b : Boid) : ℤ × ℤ × ℤ :=
  (truncQ (b.position.x / |R|), truncQ (b.position.y / |R|),
   truncQ (b.position.z / |R|))

/-- Contents of `voxelCache[cell]` after `Flocker::buildVoxelCache`
(lines 134-140): the indices of exactly the boids whose voxel is `cell`,
in list order (the insertion order of the `push_back` loop). -/
def voxelCacheAt (f : Flocker) (bs : List Boid) (cell : ℤ × ℤ × ℤ) : List ℕ :=
  (List.range bs.length).filter
    (fun j => decide (getVoxelForBoid f.PerceptionRadius (boidAt bs j) = cell))

/-- The admission predicate of `Flocker::checkVoxelForBoids`
(lines 253-265): with `vec = test.position - b.position`,
`distance = l1 = glm::length(vec)`, `l2 = glm::length(b.velocity)` and
`compareValue = dot(-b.velocity, vec) / (l1*l2)` when both lengths are
nonzero (else the initialiser `0`), the candidate `j` is pushed iff
`&b != test` (index inequality), `distance <= PerceptionRadius`, and
`FOVAngleDegCompareValue > compareValue || glm::length(b.velocity) == 0`. -/
def neighborCond (f : Flocker) (sq : ℚ → ℚ) (bs : List Boid) (i j : ℕ) : Prop :=
  j ≠ i ∧
  lengthV sq (Vec3.sub (boidAt bs j).position (boidAt bs i).position) ≤
    f.PerceptionRadius ∧
  ((if lengthV sq (Vec3.sub (boidAt bs j).position (boidAt bs i).position) ≠ 0 ∧
        lengthV sq (boidAt bs i).velocity ≠ 0
    then Vec3.dot (Vec3.neg (boidAt bs i).velocity)
          (Vec3.sub (boidAt bs j).position (boidAt bs i).position) /
          (lengthV sq (Vec3.sub (boidAt bs j).position (boidAt bs i).position) *
            lengthV sq (boidAt bs i).velocity)
    else 0) < f.FOVAngleDegCompareValue ∨
   lengthV sq (boidAt bs i).velocity = 0)

instance neighborCondDecidable (f : Flocker) (sq : ℚ → ℚ) (bs : List Boid)
    (i j : ℕ) : Decidable (neighborCond f sq bs i j) := by
  unfold neighborCond
  infer_instance

/-- The `NearbyBoid` record pushed for an accepted candidate
(lines 266-270). -/
def nearbyRecord (sq : ℚ → ℚ) (bs : List Boid) (i j : ℕ) : NearbyBoid :=
  { boid := j
    direction := Vec3.sub (boidAt bs j).position (boidAt bs i).position
    distance := lengthV sq (Vec3.sub (boidAt bs j).position (boidAt bs i).position) }

/-- The loop body of `Flocker::checkVoxelForBoids` (lines 252-271) for
one candidate `test = boids[j]` against the querying boid `boids[i]`:
returns the pushed `NearbyBoid` record, or `none` if the candidate is
rejected. -/
def neighborCheck (f : Flocker) (sq : ℚ → ℚ) (bs : List Boid) (i j : ℕ) :
    Option NearbyBoid :=
  if neighborCond f sq bs i j then some (nearbyRecord sq bs i j) else none

/-- Model of `Flocker::checkVoxelForBoids` (lines 249-274): filter the
cache bucket of `cell` through `neighborCheck`. -/
def checkVoxelForBoids (f : Flocker) (sq : ℚ → ℚ) (bs : List Boid) (i : ℕ)
    (cell : ℤ × ℤ × ℤ) : List NearbyBoid :=
  (voxelCacheAt f bs cell).filterMap (neighborCheck f sq bs i)

/-- The 27 cell offsets visited by the triple loop of
`Flocker::getNearbyBoids` (lines 230-244), in loop order (`x` outermost,
`z` innermost, each running over -1, 0, 1 relative to the boid cell). -/
def offsets27 : List (ℤ × ℤ × ℤ) :=
  [-1, 0, 1].flatMap (fun dx =>
    [-1, 0, 1].flatMap (fun dy =>
      [-1, 0, 1].map (fun dz => (dx, dy, dz))))

/-- Offset addition on cell coordinates. -/
def cellAdd (c o : ℤ × ℤ × ℤ) : ℤ × ℤ × ℤ :=
  (c.1 + o.1, c.2.1 + o.2.1, c.2.2 + o.2.2)

/-- Model of `Flocker::getNearbyBoids` (lines 225-247): scan the 3x3x3
block of cells centred on the cell of boid `i`. -/
def getNearbyBoids (f : Flocker) (sq : ℚ → ℚ) (bs : List Boid) (i : ℕ) :
    List NearbyBoid :=
  let base := getVoxelForBoid f.PerceptionRadius (boidAt bs i)
  offsets27.flatMap (fun off => checkVoxelForBoids f sq bs i (cellAdd base off))

/-- Modelled from the spec (testable property "Neighbor equivalence"):
the brute-force reference query, scanning every index `j` of the whole
agent list and applying the identical distance / field-of-view predicate
`neighborCheck`.  This is the spec-side definition that claim C5 compares
against the voxel-accelerated `getNearbyBoids`. -/
def bruteForceNeighbors (f : Flocker) (sq : ℚ → ℚ) (bs : List Boid) (i : ℕ) :
    List NearbyBoid :=
  (List.range bs.length).filterMap (neighborCheck f sq bs i)

/-- The `separationSum` accumulation of `Flocker::updateBoid`
(lines 175-183): a zero-distance neighbour contributes a random draw
scaled by 1000, any other neighbour contributes
`-direction * transformDistance distance SeparationType`.
`rnd k` models the `getRandomUniform(eng)` draw made while processing
the k-th nearby record. -/
def separationSumOf (f : Flocker) (sq : ℚ → ℚ) (rnd : ℕ → Vec3)
    (bs : List Boid) (i : ℕ) : Vec3 :=
  ((getNearbyBoids f sq bs i).enum).foldl
    (fun acc kn =>
      if kn.2.distance = 0 then Vec3.add acc (Vec3.smul 1000 (rnd kn.1))
      else Vec3.add acc
        (Vec3.smul (transformDistance kn.2.distance f.SeparationType)
          (Vec3.neg kn.2.direction)))
    Vec3.zero

/-- The `headingSum` accumulation of `Flocker::updateBoid` (line 184). -/
def headingSumOf (f : Flocker) (sq : ℚ → ℚ) (bs : List Boid) (i : ℕ) : Vec3 :=
  (getNearbyBoids f sq bs i).foldl
    (fun acc nb => Vec3.add acc (boidAt bs nb.boid).velocity) Vec3.zero

/-- The `positionSum` accumulation of `Flocker::updateBoid` (line 185). -/
def positionSumOf (f : Flocker) (sq : ℚ → ℚ) (bs : List Boid) (i : ℕ) : Vec3 :=
  (getNearbyBoids f sq bs i).foldl
    (fun acc nb => Vec3.add acc (boidAt bs nb.boid).position) Vec3.zero

/-- The steering-target selection loop of `Flocker::updateBoid`
(lines 188-197): fold over the targets keeping the first target of
minimal transformed distance; starts from `(b.position, -1)`. -/
def steeringPick (f : Flocker) (sq : ℚ → ℚ) (b : Boid) : Vec3 × ℚ :=
  f.SteeringTargets.foldl
    (fun st target =>
      let distance :=
        transformDistance (lengthV sq (Vec3.sub b.position target))
          f.SteeringTargetType
      if st.2 < 0 ∨ distance < st.2 then (target, distance) else st)
    (b.position, -1)

/-- The `separation` vector of `Flocker::updateBoid` (line 200). -/
def separationOf (f : Flocker) (sq : ℚ → ℚ) (rnd : ℕ → Vec3)
    (bs : List Boid) (i : ℕ) : Vec3 :=
  let n := (getNearbyBoids f sq bs i).length
  if 0 < n then Vec3.smul (1 / (n : ℚ)) (separationSumOf f sq rnd bs i)
  else separationSumOf f sq rnd bs i

/-- The `alignment` vector of `Flocker::updateBoid` (line 203). -/
def alignmentOf (f : Flocker) (sq : ℚ → ℚ) (bs : List Boid) (i : ℕ) : Vec3 :=
  let n := (getNearbyBoids f sq bs i).length
  if 0 < n then Vec3.smul (1 / (n : ℚ)) (headingSumOf f sq bs i)
  else headingSumOf f sq bs i

/-- The `cohesion` vector of `Flocker::updateBoid` (lines 206-207). -/
def cohesionOf (f : Flocker) (sq : ℚ → ℚ) (bs : List Boid) (i : ℕ) : Vec3 :=
  let n := (getNearbyBoids f sq bs i).length
  let avgPosition :=
    if 0 < n then Vec3.smul (1 / (n : ℚ)) (positionSumOf f sq bs i)
    else (boidAt bs i).position
  Vec3.sub avgPosition (boidAt bs i).position

/-- The `steering` vector of `Flocker::updateBoid` (lines 210-214).
The guard is the source text `!glm::any(glm::equal(steeringTarget,
b.position))`: `glm::equal` compares component-wise and `glm::any` is a
disjunction, so steering stays zero whenever ANY component of the chosen
target equals the corresponding position component. -/
def steeringOf (f : Flocker) (sq : ℚ → ℚ) (bs : List Boid) (i : ℕ) : Vec3 :=
  let b := boidAt bs i
  let st := steeringPick f sq b
  if ¬(st.1.x = b.position.x ∨ st.1.y = b.position.y ∨ st.1.z = b.position.z)
  then Vec3.smul st.2 (normalizeV sq (Vec3.sub st.1 b.position))
  else Vec3.zero

/-- The weighted operator-splitting sum of `Flocker::updateBoid`
(lines 217-221). -/
def accelSumOf (f : Flocker) (sq : ℚ → ℚ) (rnd : ℕ → Vec3)
    (bs : List Boid) (i : ℕ) : Vec3 :=
  Vec3.add
    (Vec3.add
      (Vec3.add (Vec3.smul f.SeparationWeight (separationOf f sq rnd bs i))
        (Vec3.smul f.AlignmentWeight (alignmentOf f sq bs i)))
      (Vec3.smul f.CohesionWeight (cohesionOf f sq bs i)))
    (Vec3.smul f.SteeringWeight (steeringOf f sq bs i))

/-- Model of `Flocker::updateBoid` (lines 167-223): store the clamped
weighted force sum in the acceleration field of boid `i`. -/
def updateBoid (f : Flocker) (sq : ℚ → ℚ) (rnd : ℕ → Vec3)
    (bs : List Boid) (i : ℕ) : Boid :=
  { boidAt bs i with
    acceleration := clampLength sq (accelSumOf f sq rnd bs i) f.MaxAcceleration }

/-- The quadratic coefficient `a` of `Flocker::avoidanceDirection`
(line 280). -/
def avoidA (b : Boid) : ℚ := Vec3.length2 b.velocity

/-- The quadratic coefficient `b` of `Flocker::avoidanceDirection`
(line 281). -/
def avoidB (f : Flocker) (b : Boid) : ℚ :=
  Vec3.dot (Vec3.smul 2 b.velocity) (Vec3.sub b.position f.CollisionCenter)

/-- The quadratic coefficient `c` of `Flocker::avoidanceDirection`
(line 282); the sphere radius is padded by 0.5. -/
def avoidC (f : Flocker) (b : Boid) : ℚ :=
  Vec3.length2 (Vec3.sub b.position f.CollisionCenter) -
    (f.CollisionRadius + 1/2) * (f.CollisionRadius + 1/2)

/-- The discriminant `delta` of `Flocker::avoidanceDirection`
(line 283). -/
def avoidDelta (f : Flocker) (b : Boid) : ℚ :=
  avoidB f b ^ 2 - 4 * avoidA b * avoidC f b

/-- The scalar `dot(motion_normal, CollisionCenter - position)` used by
the active branch of `Flocker::avoidanceDirection` (lines 298-299). -/
def avoidDotc (f : Flocker) (b : Boid) : ℚ :=
  Vec3.dot b.motion_normal (Vec3.sub f.CollisionCenter b.position)

/-- The argument of the square root on line 298:
`r2 - pow(dot(motion_normal, CollisionCenter - position), 2)`. -/
def avoidArg1 (f : Flocker) (b : Boid) : ℚ :=
  (f.CollisionRadius + 1/2) * (f.CollisionRadius + 1/2) - avoidDotc f b ^ 2

/-- The projected centre `C` of `Flocker::avoidanceDirection`
(line 299). -/
def avoidCproj (f : Flocker) (b : Boid) : Vec3 :=
  Vec3.sub f.CollisionCenter (Vec3.smul (avoidDotc f b) b.motion_normal)

/-- The argument of the square root on line 305:
`1 - sin_theta * sin_theta` with `sin_theta = s / CPlength`. -/
def avoidArg2 (f : Flocker) (sq : ℚ → ℚ) (b : Boid) : ℚ :=
  1 - (sq (avoidArg1 f b) /
        lengthV sq (Vec3.sub (avoidCproj f b) b.position)) ^ 2

/-- Model of `Flocker::avoidanceDirection` (lines 276-311).  Returns the
steering vector together with the boid carrying the updated avoidance
flag (the source takes the boid by reference and writes the flag). -/
def avoidanceDirection (f : Flocker) (sq : ℚ → ℚ) (b : Boid) : Vec3 × Boid :=
  let delta := avoidDelta f b
  let bq := avoidB f b
  if ¬(0 ≤ delta ∧ bq + sq delta ≤ 0) then
    (b.velocity, { b with avoidance := false })
  else if f.CollisionRadius + 1/2 ≤
      -(bq + sq delta) * lengthV sq b.velocity / (2 * avoidA b) then
    (b.velocity, { b with avoidance := false })
  else
    let s := sq (avoidArg1 f b)
    let C := avoidCproj f b
    let sign : ℚ :=
      if 0 < Vec3.dot b.motion_normal
          (Vec3.cross (Vec3.sub C b.position) b.velocity) then 1 else -1
    let CPlength := lengthV sq (Vec3.sub C b.position)
    let sin_theta := s / CPlength
    let cos_theta := sq (1 - sin_theta ^ 2)
    (Vec3.add
      (Vec3.smul (cos_theta / CPlength) (Vec3.sub C b.position))
      (Vec3.smul (sign * sin_theta / CPlength)
        (Vec3.cross b.motion_normal (Vec3.sub C b.position))),
     { b with avoidance := true })

/-- The velocity fed to `clampLength` on line 116: the velocity after the
optional avoidance blend (lines 112-115, with `RESPONSE = 0.1`), plus
`acceleration * dt`. -/
def preClampVel (f : Flocker) (sq : ℚ → ℚ) (dt : ℚ) (b : Boid) : Vec3 :=
  let pr := avoidanceDirection f sq b
  let v1 :=
    if 1/1000 < lengthV sq pr.1 ∧ pr.2.avoidance then
      Vec3.add pr.2.velocity
        (Vec3.smul (dt / (1/10))
          (Vec3.sub (Vec3.smul (lengthV sq pr.2.velocity) pr.1) pr.2.velocity))
    else pr.2.velocity
  Vec3.add v1 (Vec3.smul dt pr.2.acceleration)

/-- The per-boid body of the integration loop of `Flocker::update`
(lines 111-121): avoidance blend, velocity clamp, position advance, and
the inside-sphere safety fallback.  The fallback adds the source
expression `0.1f * boid.position - CollisionCenter` verbatim (note the
precedence: the centre is NOT inside the scaled parenthesis). -/
def integrateBoid (f : Flocker) (sq : ℚ → ℚ) (dt : ℚ) (b : Boid) : Boid :=
  let b1 := (avoidanceDirection f sq b).2
  let v2 := clampLength sq (preClampVel f sq dt b) f.MaxVelocity
  let p2 := Vec3.add b1.position (Vec3.smul dt v2)
  let v3 :=
    if Vec3.length2 (Vec3.sub p2 f.CollisionCenter) <
        f.CollisionRadius * f.CollisionRadius then
      Vec3.add v2 (Vec3.sub (Vec3.smul (1/10) p2) f.CollisionCenter)
    else v2
  { b1 with velocity := v3, position := p2 }

/-- The flocker state after the zero-radius substitution at the top of
`Flocker::updateAcceleration` (lines 125-127). -/
def phase1Flocker (f : Flocker) : Flocker :=
  if f.PerceptionRadius = 0 then { f with PerceptionRadius := 1 } else f

/-- Model of `Flocker::updateAcceleration` (lines 124-132): substitute a
perception radius of 1 when the configured radius is 0 (a persistent
write to the member), then recompute every acceleration against the
freshly built voxel cache.  `rnd i` is the draw sequence consumed by the
`updateBoid` call for boid `i`. -/
def updateAcceleration (f : Flocker) (sq : ℚ → ℚ) (rnd : ℕ → ℕ → Vec3)
    (bs : List Boid) : Flocker × List Boid :=
  (phase1Flocker f,
   (List.range bs.length).map (fun i => updateBoid (phase1Flocker f) sq (rnd i) bs i))

/-- Phase 1 of `Flocker::update`: cache the FOV compare value
(line 108, `cosv` standing for `cosf(TWO_PI * FOVAngleDeg / 360.0f)`)
and run `updateAcceleration`. -/
def accelPhase (f : Flocker) (cosv : ℚ) (sq : ℚ → ℚ) (rnd : ℕ → ℕ → Vec3)
    (bs : List Boid) : Flocker × List Boid :=
  updateAcceleration { f with FOVAngleDegCompareValue := cosv } sq rnd bs

/-- Model of `Flocker::update` (lines 105-122): phase 1 recomputes all
accelerations, phase 2 integrates every boid. -/
def update (f : Flocker) (cosv : ℚ) (sq : ℚ → ℚ) (rnd : ℕ → ℕ → Vec3)
    (dt : ℚ) (bs : List Boid) : Flocker × List Boid :=
  let fp := accelPhase f cosv sq rnd bs
  (fp.1, fp.2.map (integrateBoid fp.1 sq dt))

/-- The flocker state used throughout one `Flocker::update` call after
line 108 set the compare value and lines 125-127 substituted the
perception radius. -/
def midFlocker (f : Flocker) (cosv : ℚ) : Flocker :=
  phase1Flocker { f with FOVAngleDegCompareValue := cosv }

/-- Boid `i` as it stands between the two phases of `Flocker::update`:
acceleration freshly stored, kinematic state untouched. -/
def midBoid (f : Flocker) (cosv : ℚ) (sq : ℚ → ℚ) (rnd : ℕ → ℕ → Vec3)
    (bs : List Boid) (i : ℕ) : Boid :=
  updateBoid (midFlocker f cosv) sq (rnd i) bs i

/-- Integer square root by counting up (used only to build the concrete
square-root table `sqW`). -/
def isqrtAux (n : ℕ) : ℕ → ℕ → ℕ
  | 0, k => k
  | fuel+1, k => if (k+1)*(k+1) ≤ n then isqrtAux n fuel (k+1) else k

/-- Integer square root (exact on perfect squares). -/
def isqrt (n : ℕ) : ℕ := isqrtAux n n 0

/-- A concrete square-root function for witnesses and counterexamples:
exact on rationals whose numerator and denominator are perfect squares,
which covers every value the concrete traces in this file feed to `sq`. -/
def sqW (q : ℚ) : ℚ := (isqrt q.num.toNat : ℚ) / (isqrt q.den : ℚ)

/-! Helper lemmas about the embedded operations. -/

lemma Vec3.length2_nonneg (v : Vec3) : 0 ≤ v.length2 := by
  simp only [Vec3.length2, Vec3.dot]
  nlinarith [mul_self_nonneg v.x, mul_self_nonneg v.y, mul_self_nonneg v.z]

lemma Vec3.length2_zero : Vec3.zero.length2 = 0 := by
  simp [Vec3.length2, Vec3.dot, Vec3.zero]

lemma Vec3.length2_eq_zero {v : Vec3} : v.length2 = 0 ↔ v = Vec3.zero := by
  obtain ⟨a, b, c⟩ := v
  simp only [Vec3.length2, Vec3.dot, Vec3.zero, Vec3.mk.injEq]
  constructor
  · intro h
    refine ⟨?_, ?_, ?_⟩ <;> nlinarith [sq_nonneg a, sq_nonneg b, sq_nonneg c]
  · rintro ⟨rfl, rfl, rfl⟩
    ring

lemma Vec3.length2_smul (c : ℚ) (v : Vec3) :
    (Vec3.smul c v).length2 = c ^ 2 * v.length2 := by
  simp only [Vec3.smul, Vec3.length2, Vec3.dot]
  ring

lemma Vec3.smul_smul (a b : ℚ) (v : Vec3) :
    Vec3.smul a (Vec3.smul b v) = Vec3.smul (a * b) v := by
  simp only [Vec3.smul, Vec3.mk.injEq]
  refine ⟨by ring, by ring, by ring⟩

lemma Vec3.one_smul (v : Vec3) : Vec3.smul 1 v = v := by
  simp [Vec3.smul]

lemma Vec3.smul_zero (c : ℚ) : Vec3.smul c Vec3.zero = Vec3.zero := by
  simp [Vec3.smul, Vec3.zero]

lemma Vec3.add_zero (v : Vec3) : Vec3.add v Vec3.zero = v := by
  simp [Vec3.add, Vec3.zero]

lemma Vec3.sub_self (v : Vec3) : Vec3.sub v v = Vec3.zero := by
  simp [Vec3.sub, Vec3.zero]

lemma Vec3.x_sq_le_length2 (v : Vec3) : v.x ^ 2 ≤ v.length2 := by
  simp only [Vec3.length2, Vec3.dot]
  nlinarith [sq_nonneg v.y, sq_nonneg v.z]

lemma Vec3.y_sq_le_length2 (v : Vec3) : v.y ^ 2 ≤ v.length2 := by
  simp only [Vec3.length2, Vec3.dot]
  nlinarith [sq_nonneg v.x, sq_nonneg v.z]

lemma Vec3.z_sq_le_length2 (v : Vec3) : v.z ^ 2 ≤ v.length2 := by
  simp only [Vec3.length2, Vec3.dot]
  nlinarith [sq_nonneg v.x, sq_nonneg v.y]

/-- Squared length of a clamped vector is at most the squared clamp
bound, provided `sq` is a correct square root at the one value used. -/
lemma clampLength_length2_le (sq : ℚ → ℚ) (v : Vec3) (L : ℚ)
    (h0 : 0 ≤ sq (Vec3.length2 v)) (h2 : sq (Vec3.length2 v) ^ 2 = Vec3.length2 v)
    (hL : 0 ≤ L) :
    Vec3.length2 (clampLength sq v L) ≤ L ^ 2 := by
  unfold clampLength normalizeV lengthV
  split
  case isTrue h =>
    set s := sq (Vec3.length2 v) with hs
    have hpos : 0 < s := lt_of_le_of_lt hL h
    have hne : s ≠ 0 := ne_of_gt hpos
    rw [Vec3.smul_smul, Vec3.length2_smul, ← h2]
    have key : (L * (1 / s)) ^ 2 * s ^ 2 = L ^ 2 := by field_simp
    rw [key]
  case isFalse h =>
    push_neg at h
    calc Vec3.length2 v = sq (Vec3.length2 v) ^ 2 := h2.symm
    _ ≤ L ^ 2 := pow_le_pow_left₀ h0 h 2

/-- A clamped vector is a scalar multiple of the input with a factor in
`[0, 1]`: the direction is preserved and the magnitude never amplified. -/
lemma clampLength_eq_smul (sq : ℚ → ℚ) (v : Vec3) (L : ℚ)
    (h0 : 0 ≤ sq (Vec3.length2 v)) (hL : 0 ≤ L) :
    ∃ c : ℚ, 0 ≤ c ∧ c ≤ 1 ∧ clampLength sq v L = Vec3.smul c v := by
  unfold clampLength normalizeV lengthV
  split
  case isTrue h =>
    have hpos : 0 < sq (Vec3.length2 v) := lt_of_le_of_lt hL h
    refine ⟨L * (1 / sq (Vec3.length2 v)), ?_, ?_, ?_⟩
    · positivity
    · rw [mul_one_div]
      exact (div_le_one hpos).mpr (le_of_lt h)
    · rw [Vec3.smul_smul]
  case isFalse h =>
    exact ⟨1, by norm_num, le_refl _, (Vec3.one_smul v).symm⟩

/-- Clamping the zero vector gives the zero vector (needs only that the
square root of `0` is `0` and a nonnegative bound). -/
lemma clampLength_zero (sq : ℚ → ℚ) (L : ℚ) (hs : sq 0 = 0) (hL : 0 ≤ L) :
    clampLength sq Vec3.zero L = Vec3.zero := by
  unfold clampLength lengthV
  rw [Vec3.length2_zero, hs, if_neg (by linarith)]

lemma truncQ_mono {u v : ℚ} (h : u ≤ v) : truncQ u ≤ truncQ v := by
  unfold truncQ
  split
  case isTrue hu =>
    rw [if_pos (by linarith : (0:ℚ) ≤ v)]
    exact Int.floor_le_floor h
  case isFalse hu =>
    split
    case isTrue hv =>
      have h1 : ⌈u⌉ ≤ 0 := by
        have : u ≤ ((0:ℤ):ℚ) := by push_cast; linarith
        exact Int.ceil_le.mpr this
      have h2 : 0 ≤ ⌊v⌋ := by
        have : ((0:ℤ):ℚ) ≤ v := by push_cast; linarith
        exact Int.le_floor.mpr this
      omega
    case isFalse hv =>
      exact Int.ceil_le_ceil h

lemma truncQ_add_one (u : ℚ) : truncQ (u + 1) ≤ truncQ u + 1 := by
  unfold truncQ
  split
  case isTrue h1 =>
    split
    case isTrue h2 =>
      rw [Int.floor_add_one]
    case isFalse h2 =>
      rw [Int.floor_add_one]
      have := Int.floor_le_ceil u
      omega
  case isFalse h1 =>
    rw [if_neg (by linarith : ¬ (0:ℚ) ≤ u)]
    rw [Int.ceil_add_one]

/-- Truncation toward zero moves by at most one cell over a unit
distance (the key fact behind the 3x3x3 scan being exhaustive, valid
even though the truncated grid has a double-width cell at zero). -/
lemma truncQ_dist {u v : ℚ} (h : |u - v| ≤ 1) :
    |truncQ u - truncQ v| ≤ 1 := by
  rw [abs_le] at h ⊢
  have hu : u ≤ v + 1 := by linarith [h.2]
  have hv : v ≤ u + 1 := by linarith [h.1]
  have h1 : truncQ u ≤ truncQ v + 1 :=
    le_trans (truncQ_mono hu) (truncQ_add_one v)
  have h2 : truncQ v ≤ truncQ u + 1 :=
    le_trans (truncQ_mono hv) (truncQ_add_one u)
  omega

/-- Two coordinates within `R` of each other land in adjacent (or the
same) truncated grid cells of size `R`. -/
lemma truncQ_div_dist {x y R : ℚ} (hR : 0 < R) (h : (x - y) ^ 2 ≤ R ^ 2) :
    |truncQ (x / R) - truncQ (y / R)| ≤ 1 := by
  apply truncQ_dist
  have hxy : |x - y| ≤ R := by
    nlinarith [abs_nonneg (x - y), sq_abs (x - y)]
  have hdiv : x / R - y / R = (x - y) / R := by ring
  rw [hdiv, abs_div, abs_of_pos hR]
  exact (div_le_one hR).mpr hxy

lemma mem_voxelCacheAt {f : Flocker} {bs : List Boid} {cell : ℤ × ℤ × ℤ}
    {j : ℕ} :
    j ∈ voxelCacheAt f bs cell ↔
      j < bs.length ∧ getVoxelForBoid f.PerceptionRadius (boidAt bs j) = cell := by
  simp [voxelCacheAt, List.mem_filter, List.mem_range]

lemma neighborCheck_eq_some {f : Flocker} {sq : ℚ → ℚ} {bs : List Boid}
    {i j : ℕ} {nb : NearbyBoid} :
    neighborCheck f sq bs i j = some nb ↔
      neighborCond f sq bs i j ∧ nb = nearbyRecord sq bs i j := by
  unfold neighborCheck
  split
  case isTrue h =>
    simp only [Option.some.injEq]
    exact ⟨fun he => ⟨h, he.symm⟩, fun hc => hc.2.symm⟩
  case isFalse h =>
    simp only [reduceCtorEq, false_iff]
    exact fun hc => h hc.1

lemma mem_checkVoxelForBoids {f : Flocker} {sq : ℚ → ℚ} {bs : List Boid}
    {i : ℕ} {cell : ℤ × ℤ × ℤ} {nb : NearbyBoid} :
    nb ∈ checkVoxelForBoids f sq bs i cell ↔
      ∃ j, j < bs.length ∧
        getVoxelForBoid f.PerceptionRadius (boidAt bs j) = cell ∧
        neighborCond f sq bs i j ∧ nb = nearbyRecord sq bs i j := by
  simp only [checkVoxelForBoids, List.mem_filterMap, mem_voxelCacheAt,
    neighborCheck_eq_some]
  constructor
  · rintro ⟨j, ⟨hj, hcell⟩, hc, hrec⟩
    exact ⟨j, hj, hcell, hc, hrec⟩
  · rintro ⟨j, hj, hcell, hc, hrec⟩
    exact ⟨j, ⟨hj, hcell⟩, hc, hrec⟩

lemma mem_getNearbyBoids {f : Flocker} {sq : ℚ → ℚ} {bs : List Boid}
    {i : ℕ} {nb : NearbyBoid} :
    nb ∈ getNearbyBoids f sq bs i ↔
      ∃ j, j < bs.length ∧ neighborCond f sq bs i j ∧
        nb = nearbyRecord sq bs i j ∧
        ∃ off ∈ offsets27,
          getVoxelForBoid f.PerceptionRadius (boidAt bs j) =
            cellAdd (getVoxelForBoid f.PerceptionRadius (boidAt bs i)) off := by
  simp only [getNearbyBoids, List.mem_flatMap, mem_checkVoxelForBoids]
  constructor
  · rintro ⟨off, hoff, j, hj, hcell, hc, hrec⟩
    exact ⟨j, hj, hc, hrec, off, hoff, hcell⟩
  · rintro ⟨j, hj, hc, hrec, off, hoff, hcell⟩
    exact ⟨off, hoff, j, hj, hcell, hc, hrec⟩

lemma mem_bruteForceNeighbors {f : Flocker} {sq : ℚ → ℚ} {bs : List Boid}
    {i : ℕ} {nb : NearbyBoid} :
    nb ∈ bruteForceNeighbors f sq bs i ↔
      ∃ j, j < bs.length ∧ neighborCond f sq bs i j ∧
        nb = nearbyRecord sq bs i j := by
  simp only [bruteForceNeighbors, List.mem_filterMap, List.mem_range,
    neighborCheck_eq_some]

lemma mem_offsets27 {o : ℤ × ℤ × ℤ} (h1 : |o.1| ≤ 1) (h2 : |o.2.1| ≤ 1)
    (h3 : |o.2.2| ≤ 1) : o ∈ offsets27 := by
  obtain ⟨a, b, c⟩ := o
  simp only [abs_le] at h1 h2 h3
  have ha : a = -1 ∨ a = 0 ∨ a = 1 := by omega
  have hb : b = -1 ∨ b = 0 ∨ b = 1 := by omega
  have hc : c = -1 ∨ c = 0 ∨ c = 1 := by omega
  rcases ha with rfl | rfl | rfl <;> rcases hb with rfl | rfl | rfl <;>
    rcases hc with rfl | rfl | rfl <;> decide

/-- If `sq` is a correct square root at the separation of boids `i` and
`j`, and the admission predicate accepts `j`, then the voxel of `j` lies
in the 3x3x3 block around the voxel of `i`: the accelerated scan cannot
miss an admissible candidate. -/
lemma neighborCond_voxel_block {f : Flocker} {sq : ℚ → ℚ} {bs : List Boid}
    {i j : ℕ} (hR : f.PerceptionRadius ≠ 0)
    (hsq : 0 ≤ sq (Vec3.length2 (Vec3.sub (boidAt bs j).position (boidAt bs i).position)) ∧
      sq (Vec3.length2 (Vec3.sub (boidAt bs j).position (boidAt bs i).position)) ^ 2 =
        Vec3.length2 (Vec3.sub (boidAt bs j).position (boidAt bs i).position))
    (hc : neighborCond f sq bs i j) :
    ∃ off ∈ offsets27,
      getVoxelForBoid f.PerceptionRadius (boidAt bs j) =
        cellAdd (getVoxelForBoid f.PerceptionRadius (boidAt bs i)) off := by
  obtain ⟨-, hdist, -⟩ := hc
  set v := Vec3.sub (boidAt bs j).position (boidAt bs i).position with hv
  have hs0 : 0 ≤ sq (Vec3.length2 v) := hsq.1
  have hs0L : (0:ℚ) ≤ lengthV sq v := hs0
  have hRpos : 0 < f.PerceptionRadius :=
    lt_of_le_of_ne (le_trans hs0L hdist) (Ne.symm hR)
  have hd2 : Vec3.length2 v ≤ f.PerceptionRadius ^ 2 := by
    calc Vec3.length2 v = sq (Vec3.length2 v) ^ 2 := hsq.2.symm
    _ ≤ f.PerceptionRadius ^ 2 := pow_le_pow_left₀ hs0 (by exact_mod_cast hdist) 2
  have habs : |f.PerceptionRadius| = f.PerceptionRadius := abs_of_pos hRpos
  have hx : |truncQ ((boidAt bs j).position.x / |f.PerceptionRadius|) -
      truncQ ((boidAt bs i).position.x / |f.PerceptionRadius|)| ≤ 1 := by
    rw [habs]
    apply truncQ_div_dist hRpos
    have := Vec3.x_sq_le_length2 v
    have hvx : v.x = (boidAt bs j).position.x - (boidAt bs i).position.x := rfl
    rw [hvx] at this
    linarith
  have hy : |truncQ ((boidAt bs j).position.y / |f.PerceptionRadius|) -
      truncQ ((boidAt bs i).position.y / |f.PerceptionRadius|)| ≤ 1 := by
    rw [habs]
    apply truncQ_div_dist hRpos
    have := Vec3.y_sq_le_length2 v
    have hvy : v.y = (boidAt bs j).position.y - (boidAt bs i).position.y := rfl
    rw [hvy] at this
    linarith
  have hz : |truncQ ((boidAt bs j).position.z / |f.PerceptionRadius|) -
      truncQ ((boidAt bs i).position.z / |f.PerceptionRadius|)| ≤ 1 := by
    rw [habs]
    apply truncQ_div_dist hRpos
    have := Vec3.z_sq_le_length2 v
    have hvz : v.z = (boidAt bs j).position.z - (boidAt bs i).position.z := rfl
    rw [hvz] at this
    linarith
  refine ⟨(truncQ ((boidAt bs j).position.x / |f.PerceptionRadius|) -
            truncQ ((boidAt bs i).position.x / |f.PerceptionRadius|),
           truncQ ((boidAt bs j).position.y / |f.PerceptionRadius|) -
            truncQ ((boidAt bs i).position.y / |f.PerceptionRadius|),
           truncQ ((boidAt bs j).position.z / |f.PerceptionRadius|) -
            truncQ ((boidAt bs i).position.z / |f.PerceptionRadius|)),
         mem_offsets27 hx hy hz, ?_⟩
  simp only [getVoxelForBoid, cellAdd, Prod.mk.injEq]
  refine ⟨by ring, by ring, by ring⟩

lemma getD_map {α β : Type} (g : α → β) (l : List α) (i : ℕ)
    (h : i < l.length) (d1 : α) (d2 : β) :
    (l.map g).getD i d2 = g (l.getD i d1) := by
  rw [List.getD_eq_getElem _ _ (by simpa using h), List.getD_eq_getElem _ _ h,
    List.getElem_map]

lemma getD_range {n i : ℕ} (h : i < n) (d : ℕ) : (List.range n).getD i d = i := by
  rw [List.getD_eq_getElem _ _ (by simpa using h)]
  simp

/-- The boid list produced by phase 1 of `update`, entry by entry. -/
lemma boidAt_accelPhase (f : Flocker) (cosv : ℚ) (sq : ℚ → ℚ)
    (rnd : ℕ → ℕ → Vec3) (bs : List Boid) (i : ℕ) (hi : i < bs.length) :
    boidAt (accelPhase f cosv sq rnd bs).2 i = midBoid f cosv sq rnd bs i := by
  unfold accelPhase updateAcceleration boidAt midBoid midFlocker
  rw [getD_map _ _ _ (by simpa using hi) 0, getD_range (by simpa using hi)]

lemma accelPhase_fst (f : Flocker) (cosv : ℚ) (sq : ℚ → ℚ)
    (rnd : ℕ → ℕ → Vec3) (bs : List Boid) :
    (accelPhase f cosv sq rnd bs).1 = midFlocker f cosv := rfl

lemma accelPhase_length (f : Flocker) (cosv : ℚ) (sq : ℚ → ℚ)
    (rnd : ℕ → ℕ → Vec3) (bs : List Boid) :
    (accelPhase f cosv sq rnd bs).2.length = bs.length := by
  unfold accelPhase updateAcceleration
  simp

/-- The boid list produced by a whole `update` call, entry by entry. -/
lemma boidAt_update (f : Flocker) (cosv : ℚ) (sq : ℚ → ℚ)
    (rnd : ℕ → ℕ → Vec3) (dt : ℚ) (bs : List Boid) (i : ℕ)
    (hi : i < bs.length) :
    boidAt (update f cosv sq rnd dt bs).2 i =
      integrateBoid (midFlocker f cosv) sq dt (midBoid f cosv sq rnd bs i) := by
  unfold update
  show boidAt ((accelPhase f cosv sq rnd bs).2.map
      (integrateBoid (accelPhase f cosv sq rnd bs).1 sq dt)) i = _
  unfold boidAt
  rw [getD_map _ _ _ (by rw [accelPhase_length]; exact hi) (mkBoid Vec3.zero Vec3.zero)]
  rw [show (accelPhase f cosv sq rnd bs).2.getD i (mkBoid Vec3.zero Vec3.zero) =
      boidAt (accelPhase f cosv sq rnd bs).2 i from rfl]
  rw [boidAt_accelPhase f cosv sq rnd bs i hi, accelPhase_fst]

lemma update_fst (f : Flocker) (cosv : ℚ) (sq : ℚ → ℚ) (rnd : ℕ → ℕ → Vec3)
    (dt : ℚ) (bs : List Boid) :
    (update f cosv sq rnd dt bs).1 = midFlocker f cosv := rfl

/-- The substitution `phase1Flocker` only ever touches the perception radius. -/
lemma phase1Flocker_fields (f : Flocker) :
    (phase1Flocker f).SeparationWeight = f.SeparationWeight ∧
    (phase1Flocker f).SeparationType = f.SeparationType ∧
    (phase1Flocker f).AlignmentWeight = f.AlignmentWeight ∧
    (phase1Flocker f).CohesionWeight = f.CohesionWeight ∧
    (phase1Flocker f).SteeringWeight = f.SteeringWeight ∧
    (phase1Flocker f).SteeringTargets = f.SteeringTargets ∧
    (phase1Flocker f).SteeringTargetType = f.SteeringTargetType ∧
    (phase1Flocker f).MaxAcceleration = f.MaxAcceleration ∧
    (phase1Flocker f).MaxVelocity = f.MaxVelocity ∧
    (phase1Flocker f).CollisionRadius = f.CollisionRadius ∧
    (phase1Flocker f).CollisionCenter = f.CollisionCenter ∧
    (phase1Flocker f).FOVAngleDegCompareValue = f.FOVAngleDegCompareValue := by
  unfold phase1Flocker
  split <;> exact ⟨rfl, rfl, rfl, rfl, rfl, rfl, rfl, rfl, rfl, rfl, rfl, rfl⟩

/-- The state `midFlocker` preserves every field the integrator and the force
engine read except the perception radius and the cached compare value. -/
lemma midFlocker_fields (f : Flocker) (cosv : ℚ) :
    (midFlocker f cosv).SteeringTargets = f.SteeringTargets ∧
    (midFlocker f cosv).MaxAcceleration = f.MaxAcceleration ∧
    (midFlocker f cosv).MaxVelocity = f.MaxVelocity ∧
    (midFlocker f cosv).CollisionRadius = f.CollisionRadius ∧
    (midFlocker f cosv).CollisionCenter = f.CollisionCenter := by
  unfold midFlocker
  obtain ⟨-, -, -, -, -, h6, -, h8, h9, h10, h11, -⟩ :=
    phase1Flocker_fields { f with FOVAngleDegCompareValue := cosv }
  exact ⟨h6.trans rfl, h8.trans rfl, h9.trans rfl, h10.trans rfl, h11.trans rfl⟩

/-- Function `avoidanceDirection` reads only the collision sphere from the
flocker state, so two flocker states sharing that sphere agree on it. -/
lemma avoidanceDirection_congr (f g : Flocker) (sq : ℚ → ℚ) (b : Boid)
    (hr : g.CollisionRadius = f.CollisionRadius)
    (hc : g.CollisionCenter = f.CollisionCenter) :
    avoidanceDirection g sq b = avoidanceDirection f sq b := by
  simp only [avoidanceDirection, avoidDelta, avoidA, avoidB, avoidC, avoidArg1,
    avoidDotc, avoidCproj, hr, hc]

/-- A single boid has no nearby boids: the only cache entry is the boid
itself, which the pointer-inequality test rejects. -/
lemma getNearbyBoids_singleton (f : Flocker) (sq : ℚ → ℚ) (b : Boid) :
    getNearbyBoids f sq [b] 0 = [] := by
  rw [List.eq_nil_iff_forall_not_mem]
  intro nb hmem
  rw [mem_getNearbyBoids] at hmem
  obtain ⟨j, hj, hc, -⟩ := hmem
  have : j = 0 := by simpa using hj
  exact hc.1 this

/-- With no nearby boids and a zero steering vector, the weighted force
sum of `updateBoid` is exactly zero. -/
lemma accelSumOf_no_neighbors (f : Flocker) (sq : ℚ → ℚ) (rnd : ℕ → Vec3)
    (bs : List Boid) (i : ℕ) (hnb : getNearbyBoids f sq bs i = [])
    (hsteer : steeringOf f sq bs i = Vec3.zero) :
    accelSumOf f sq rnd bs i = Vec3.zero := by
  have hsep : separationSumOf f sq rnd bs i = Vec3.zero := by
    unfold separationSumOf
    rw [hnb]
    rfl
  have hhead : headingSumOf f sq bs i = Vec3.zero := by
    unfold headingSumOf
    rw [hnb]
    rfl
  have hpos : positionSumOf f sq bs i = Vec3.zero := by
    unfold positionSumOf
    rw [hnb]
    rfl
  have hn : (getNearbyBoids f sq bs i).length = 0 := by rw [hnb]; rfl
  have hsep2 : separationOf f sq rnd bs i = Vec3.zero := by
    unfold separationOf
    rw [hn, hsep]
    norm_num
  have halign : alignmentOf f sq bs i = Vec3.zero := by
    unfold alignmentOf
    rw [hn, hhead]
    norm_num
  have hcoh : cohesionOf f sq bs i = Vec3.zero := by
    unfold cohesionOf
    rw [hn]
    norm_num [Vec3.sub_self]
  unfold accelSumOf
  rw [hsep2, halign, hcoh, hsteer]
  simp [Vec3.smul_zero, Vec3.add_zero]

/-- With no nearby boids and no steering targets, the weighted force
sum of `updateBoid` is exactly zero. -/
lemma accelSumOf_isolated (f : Flocker) (sq : ℚ → ℚ) (rnd : ℕ → Vec3)
    (bs : List Boid) (i : ℕ) (hnb : getNearbyBoids f sq bs i = [])
    (ht : f.SteeringTargets = []) :
    accelSumOf f sq rnd bs i = Vec3.zero := by
  apply accelSumOf_no_neighbors f sq rnd bs i hnb
  have hpick : steeringPick f sq (boidAt bs i) = ((boidAt bs i).position, -1) := by
    unfold steeringPick
    rw [ht]
    rfl
  simp [steeringOf, hpick]

/-- Applying `updateBoid` to an isolated boid stores zero acceleration. -/
lemma updateBoid_isolated (f : Flocker) (sq : ℚ → ℚ) (rnd : ℕ → Vec3)
    (bs : List Boid) (i : ℕ) (hnb : getNearbyBoids f sq bs i = [])
    (ht : f.SteeringTargets = []) (hs0 : sq 0 = 0) (hM : 0 ≤ f.MaxAcceleration) :
    updateBoid f sq rnd bs i = { boidAt bs i with acceleration := Vec3.zero } := by
  unfold updateBoid
  rw [accelSumOf_isolated f sq rnd bs i hnb ht, clampLength_zero sq _ hs0 hM]

/-- The avoidance flag written by `avoidanceDirection` is `true` exactly
when the seeing check passes and the range check does not bail out. -/
lemma avoidance_active_iff (f : Flocker) (sq : ℚ → ℚ) (b : Boid) :
    (avoidanceDirection f sq b).2.avoidance = true ↔
      ((0 ≤ avoidDelta f b ∧ avoidB f b + sq (avoidDelta f b) ≤ 0) ∧
       ¬(f.CollisionRadius + 1/2 ≤
          -(avoidB f b + sq (avoidDelta f b)) * lengthV sq b.velocity /
            (2 * avoidA b))) := by
  simp only [avoidanceDirection]
  split
  case isTrue h =>
    show false = true ↔ _
    simp only [Bool.false_eq_true, false_iff]
    tauto
  case isFalse h =>
    split
    case isTrue h2 =>
      show false = true ↔ _
      simp only [Bool.false_eq_true, false_iff]
      tauto
    case isFalse h2 =>
      show true = true ↔ _
      simp only [true_iff]
      exact ⟨not_not.mp h, h2⟩

lemma sqW_natCast (n : ℕ) : sqW ((n : ℕ) : ℚ) = ((isqrt n : ℕ) : ℚ) := by
  unfold sqW
  rw [Rat.num_natCast, Rat.den_natCast, Int.toNat_natCast]
  norm_num [isqrt, isqrtAux]

lemma sqW_zero : sqW 0 = 0 := by
  have h := sqW_natCast 0
  norm_num at h
  exact h

lemma sqW_one : sqW 1 = 1 := by
  have h := sqW_natCast 1
  rw [show isqrt 1 = 1 from by decide] at h
  norm_num at h
  exact h

lemma sqW_four : sqW 4 = 2 := by
  have h := sqW_natCast 4
  rw [show isqrt 4 = 2 from by decide] at h
  norm_num at h
  exact h

lemma sqW_nine : sqW 9 = 3 := by
  have h := sqW_natCast 9
  rw [show isqrt 9 = 3 from by decide] at h
  norm_num at h
  exact h

lemma sqW_sixteen : sqW 16 = 4 := by
  have h := sqW_natCast 16
  rw [show isqrt 16 = 4 from by decide] at h
  norm_num at h
  exact h

lemma sqW_twentyfive : sqW 25 = 5 := by
  have h := sqW_natCast 25
  rw [show isqrt 25 = 5 from by decide] at h
  norm_num at h
  exact h

lemma sqW_hundred : sqW 100 = 10 := by
  have h := sqW_natCast 100
  rw [show isqrt 100 = 10 from by decide] at h
  norm_num at h
  exact h

lemma sqW_tenthousand : sqW 10000 = 100 := by
  have h := sqW_natCast 10000
  rw [show isqrt 10000 = 100 from by decide] at h
  norm_num at h
  exact h

/-- C10: the zero-radius substitution is a persistent mutation of the
configuration: after any `update` call the stored `PerceptionRadius`
field equals 1 if it was configured as 0 when the call began, and is
left unchanged for every nonzero configured value. -/
theorem C10_radius_mutation_persistent (f : Flocker) (cosv : ℚ) (sq : ℚ → ℚ)
    (rnd : ℕ → ℕ → Vec3) (dt : ℚ) (bs : List Boid) :
    (update f cosv sq rnd dt bs).1.PerceptionRadius =
      if f.PerceptionRadius = 0 then 1 else f.PerceptionRadius := by
  rw [update_fst]
  by_cases h : f.PerceptionRadius = 0 <;>
    simp [midFlocker, phase1Flocker, h]

/-- C9: whenever a simulation step runs with the perception radius
configured as 0, the engine substitutes 1 before any evaluation: the
whole step computes exactly as it would with radius 1, and the radius
seen by the acceleration phase (grid cell size and neighbour distance
threshold) is 1. -/
theorem C9_zero_radius_substituted (f : Flocker) (cosv : ℚ) (sq : ℚ → ℚ)
    (rnd : ℕ → ℕ → Vec3) (dt : ℚ) (bs : List Boid)
    (h : f.PerceptionRadius = 0) :
    update f cosv sq rnd dt bs =
      update { f with PerceptionRadius := 1 } cosv sq rnd dt bs ∧
    (accelPhase f cosv sq rnd bs).1.PerceptionRadius = 1 := by
  have hmid : midFlocker f cosv = midFlocker { f with PerceptionRadius := 1 } cosv := by
    simp [midFlocker, phase1Flocker, h]
  constructor
  · unfold update accelPhase updateAcceleration
    unfold midFlocker at hmid
    rw [hmid]
  · rw [accelPhase_fst]
    simp [midFlocker, phase1Flocker, h]

/-- C9 witness: a concrete run with radius configured as 0. -/
theorem C9_zero_radius_substituted_witness :
    update { defaultFlocker with PerceptionRadius := 0 } 0 sqW (fun _ _ => Vec3.zero) 1 [] =
      update { { defaultFlocker with PerceptionRadius := 0 } with PerceptionRadius := 1 } 0 sqW
        (fun _ _ => Vec3.zero) 1 [] ∧
    (accelPhase { defaultFlocker with PerceptionRadius := 0 } 0 sqW (fun _ _ => Vec3.zero) []).1.PerceptionRadius = 1 :=
  C9_zero_radius_substituted _ 0 sqW (fun _ _ => Vec3.zero) 1 [] rfl

/-- C6: the stored acceleration is the clamp of the weighted sum
`wSep*separation + wAlign*alignment + wCohesion*cohesion +
wSteer*steering`; its squared magnitude is at most `MaxAcceleration ^ 2`
(so its magnitude is at most `MaxAcceleration`, which implies the
claimed `MaxAcceleration + eps` bound), and the stored value is always a
scalar multiple of the unclamped sum by a factor in `[0,1]`: direction
preserved, never amplified. -/
theorem C6_acceleration_clamped (f : Flocker) (sq : ℚ → ℚ) (rnd : ℕ → Vec3)
    (bs : List Boid) (i : ℕ) (hM : 0 ≤ f.MaxAcceleration)
    (hsq : 0 ≤ sq (Vec3.length2 (accelSumOf f sq rnd bs i)) ∧
      sq (Vec3.length2 (accelSumOf f sq rnd bs i)) ^ 2 =
        Vec3.length2 (accelSumOf f sq rnd bs i)) :
    (updateBoid f sq rnd bs i).acceleration =
      clampLength sq (accelSumOf f sq rnd bs i) f.MaxAcceleration ∧
    accelSumOf f sq rnd bs i =
      Vec3.add (Vec3.add (Vec3.add
        (Vec3.smul f.SeparationWeight (separationOf f sq rnd bs i))
        (Vec3.smul f.AlignmentWeight (alignmentOf f sq bs i)))
        (Vec3.smul f.CohesionWeight (cohesionOf f sq bs i)))
        (Vec3.smul f.SteeringWeight (steeringOf f sq bs i)) ∧
    Vec3.length2 (updateBoid f sq rnd bs i).acceleration ≤ f.MaxAcceleration ^ 2 ∧
    ∃ c : ℚ, 0 ≤ c ∧ c ≤ 1 ∧
      (updateBoid f sq rnd bs i).acceleration =
        Vec3.smul c (accelSumOf f sq rnd bs i) := by
  refine ⟨rfl, rfl, ?_, ?_⟩
  · show Vec3.length2 (clampLength sq (accelSumOf f sq rnd bs i) f.MaxAcceleration) ≤ _
    exact clampLength_length2_le sq _ _ hsq.1 hsq.2 hM
  · show ∃ c : ℚ, 0 ≤ c ∧ c ≤ 1 ∧
      clampLength sq (accelSumOf f sq rnd bs i) f.MaxAcceleration =
        Vec3.smul c (accelSumOf f sq rnd bs i)
    exact clampLength_eq_smul sq _ _ hsq.1 hM

/-- C6 witness: the acceleration bound at a concrete input (an isolated
boid of the default flocker, where the force sum is zero). -/
theorem C6_acceleration_clamped_witness :
    (updateBoid defaultFlocker sqW (fun _ => Vec3.zero)
        [mkBoid Vec3.zero Vec3.zero] 0).acceleration =
      clampLength sqW
        (accelSumOf defaultFlocker sqW (fun _ => Vec3.zero)
          [mkBoid Vec3.zero Vec3.zero] 0) defaultFlocker.MaxAcceleration ∧
    accelSumOf defaultFlocker sqW (fun _ => Vec3.zero)
        [mkBoid Vec3.zero Vec3.zero] 0 =
      Vec3.add (Vec3.add (Vec3.add
        (Vec3.smul defaultFlocker.SeparationWeight
          (separationOf defaultFlocker sqW (fun _ => Vec3.zero)
            [mkBoid Vec3.zero Vec3.zero] 0))
        (Vec3.smul defaultFlocker.AlignmentWeight
          (alignmentOf defaultFlocker sqW [mkBoid Vec3.zero Vec3.zero] 0)))
        (Vec3.smul defaultFlocker.CohesionWeight
          (cohesionOf defaultFlocker sqW [mkBoid Vec3.zero Vec3.zero] 0)))
        (Vec3.smul defaultFlocker.SteeringWeight
          (steeringOf defaultFlocker sqW [mkBoid Vec3.zero Vec3.zero] 0)) ∧
    Vec3.length2 (updateBoid defaultFlocker sqW (fun _ => Vec3.zero)
        [mkBoid Vec3.zero Vec3.zero] 0).acceleration ≤
      defaultFlocker.MaxAcceleration ^ 2 ∧
    ∃ c : ℚ, 0 ≤ c ∧ c ≤ 1 ∧
      (updateBoid defaultFlocker sqW (fun _ => Vec3.zero)
          [mkBoid Vec3.zero Vec3.zero] 0).acceleration =
        Vec3.smul c (accelSumOf defaultFlocker sqW (fun _ => Vec3.zero)
          [mkBoid Vec3.zero Vec3.zero] 0) :=
  C6_acceleration_clamped defaultFlocker sqW (fun _ => Vec3.zero)
    [mkBoid Vec3.zero Vec3.zero] 0
    (by norm_num [defaultFlocker])
    (by
      rw [accelSumOf_isolated _ _ _ _ _
        (getNearbyBoids_singleton _ _ _) rfl, Vec3.length2_zero, sqW_zero]
      norm_num)

/-- C5: for every agent collection and every nonzero perception radius
(zero being excluded by the engine invariant of C9, since a zero cell
size divides by zero), the voxel-accelerated neighbour query returns
exactly the records that the spec-side brute-force scan over all other
agents returns, as a set, provided `sq` is a correct square root at the
pairwise separations it is applied to. -/
theorem C5_neighbor_equivalence (f : Flocker) (sq : ℚ → ℚ) (bs : List Boid)
    (i : ℕ) (hR : f.PerceptionRadius ≠ 0)
    (hsq : ∀ j, j < bs.length →
      0 ≤ sq (Vec3.length2 (Vec3.sub (boidAt bs j).position (boidAt bs i).position)) ∧
      sq (Vec3.length2 (Vec3.sub (boidAt bs j).position (boidAt bs i).position)) ^ 2 =
        Vec3.length2 (Vec3.sub (boidAt bs j).position (boidAt bs i).position)) :
    ∀ nb, nb ∈ getNearbyBoids f sq bs i ↔ nb ∈ bruteForceNeighbors f sq bs i := by
  intro nb
  rw [mem_getNearbyBoids, mem_bruteForceNeighbors]
  constructor
  · rintro ⟨j, hj, hc, hrec, -⟩
    exact ⟨j, hj, hc, hrec⟩
  · rintro ⟨j, hj, hc, hrec⟩
    exact ⟨j, hj, hc, hrec, neighborCond_voxel_block hR (hsq j hj) hc⟩

/-- C5 witness: two concrete boids at distance 5 with perception radius
30; the accelerated query and the brute-force scan agree on the record
of candidate 1 as seen from agent 0. -/
theorem C5_neighbor_equivalence_witness :
    nearbyRecord sqW [mkBoid Vec3.zero ⟨3, 4, 0⟩, mkBoid ⟨3, 4, 0⟩ Vec3.zero] 0 1 ∈
        getNearbyBoids defaultFlocker sqW
          [mkBoid Vec3.zero ⟨3, 4, 0⟩, mkBoid ⟨3, 4, 0⟩ Vec3.zero] 0 ↔
      nearbyRecord sqW [mkBoid Vec3.zero ⟨3, 4, 0⟩, mkBoid ⟨3, 4, 0⟩ Vec3.zero] 0 1 ∈
        bruteForceNeighbors defaultFlocker sqW
          [mkBoid Vec3.zero ⟨3, 4, 0⟩, mkBoid ⟨3, 4, 0⟩ Vec3.zero] 0 :=
  C5_neighbor_equivalence defaultFlocker sqW
    [mkBoid Vec3.zero ⟨3, 4, 0⟩, mkBoid ⟨3, 4, 0⟩ Vec3.zero] 0
    (by norm_num [defaultFlocker])
    (by
      intro j hj
      have hj2 : j < 2 := by simpa using hj
      clear hj
      interval_cases j
      · constructor
        · rw [show Vec3.sub (boidAt [mkBoid Vec3.zero ⟨3, 4, 0⟩, mkBoid ⟨3, 4, 0⟩ Vec3.zero] 0).position
              (boidAt [mkBoid Vec3.zero ⟨3, 4, 0⟩, mkBoid ⟨3, 4, 0⟩ Vec3.zero] 0).position = Vec3.zero
            from Vec3.sub_self _, Vec3.length2_zero, sqW_zero]
        · rw [show Vec3.sub (boidAt [mkBoid Vec3.zero ⟨3, 4, 0⟩, mkBoid ⟨3, 4, 0⟩ Vec3.zero] 0).position
              (boidAt [mkBoid Vec3.zero ⟨3, 4, 0⟩, mkBoid ⟨3, 4, 0⟩ Vec3.zero] 0).position = Vec3.zero
            from Vec3.sub_self _, Vec3.length2_zero, sqW_zero]
          norm_num
      · have hv : Vec3.length2 (Vec3.sub
            (boidAt [mkBoid Vec3.zero ⟨3, 4, 0⟩, mkBoid ⟨3, 4, 0⟩ Vec3.zero] 1).position
            (boidAt [mkBoid Vec3.zero ⟨3, 4, 0⟩, mkBoid ⟨3, 4, 0⟩ Vec3.zero] 0).position) = 25 := by
          norm_num [boidAt, mkBoid, Vec3.sub, Vec3.length2, Vec3.dot, Vec3.zero]
        rw [hv, sqW_twentyfive]
        norm_num)
    (nearbyRecord sqW [mkBoid Vec3.zero ⟨3, 4, 0⟩, mkBoid ⟨3, 4, 0⟩ Vec3.zero] 0 1)

/-- C7: a candidate index `j` is included by the neighbourhood query
(for an agent in the collection, with the nonzero radius guaranteed by
the C9 invariant) iff the distance is at most `PerceptionRadius` AND
either `dot(-velocity, direction) / (|direction| * |velocity|)` is
strictly BELOW the stored compare value `cosf(2*pi*FOVAngleDeg/360)`
(the inverted comparison of line 265, with the compare value defaulting
to 0 when either length is zero) or the agent velocity is exactly
zero. -/
theorem C7_fov_predicate (f : Flocker) (sq : ℚ → ℚ) (bs : List Boid)
    (i j : ℕ) (hR : f.PerceptionRadius ≠ 0)
    (hsq : ∀ k, k < bs.length →
      0 ≤ sq (Vec3.length2 (Vec3.sub (boidAt bs k).position (boidAt bs i).position)) ∧
      sq (Vec3.length2 (Vec3.sub (boidAt bs k).position (boidAt bs i).position)) ^ 2 =
        Vec3.length2 (Vec3.sub (boidAt bs k).position (boidAt bs i).position))
    (hsqv : 0 ≤ sq (Vec3.length2 (boidAt bs i).velocity) ∧
      sq (Vec3.length2 (boidAt bs i).velocity) ^ 2 =
        Vec3.length2 (boidAt bs i).velocity) :
    (∃ nb ∈ getNearbyBoids f sq bs i, nb.boid = j) ↔
      (j < bs.length ∧ j ≠ i ∧
       lengthV sq (Vec3.sub (boidAt bs j).position (boidAt bs i).position) ≤
         f.PerceptionRadius ∧
       ((if lengthV sq (Vec3.sub (boidAt bs j).position (boidAt bs i).position) ≠ 0 ∧
             lengthV sq (boidAt bs i).velocity ≠ 0
         then Vec3.dot (Vec3.neg (boidAt bs i).velocity)
               (Vec3.sub (boidAt bs j).position (boidAt bs i).position) /
               (lengthV sq (Vec3.sub (boidAt bs j).position (boidAt bs i).position) *
                 lengthV sq (boidAt bs i).velocity)
         else 0) < f.FOVAngleDegCompareValue ∨
        (boidAt bs i).velocity = Vec3.zero)) := by
  constructor
  · rintro ⟨nb, hmem, hidx⟩
    rw [mem_getNearbyBoids] at hmem
    obtain ⟨k, hk, hc, hrec, -⟩ := hmem
    have hkj : k = j := by
      rw [hrec] at hidx
      exact hidx
    subst hkj
    unfold neighborCond at hc
    obtain ⟨h1, h2, h3⟩ := hc
    refine ⟨hk, h1, h2, ?_⟩
    rcases h3 with hlt | hv0
    · exact Or.inl hlt
    · right
      have hl2 : Vec3.length2 (boidAt bs i).velocity = 0 := by
        have := hsqv.2
        rw [show lengthV sq (boidAt bs i).velocity =
          sq (Vec3.length2 (boidAt bs i).velocity) from rfl] at hv0
        rw [hv0] at this
        simpa using this.symm
      exact Vec3.length2_eq_zero.mp hl2
  · rintro ⟨hj, hne, hdist, hfov⟩
    have hc : neighborCond f sq bs i j := by
      unfold neighborCond
      refine ⟨hne, hdist, ?_⟩
      rcases hfov with hlt | hveq
      · exact Or.inl hlt
      · right
        show lengthV sq (boidAt bs i).velocity = 0
        have h20 : sq (Vec3.length2 (boidAt bs i).velocity) ^ 2 =
            Vec3.length2 (boidAt bs i).velocity := hsqv.2
        rw [hveq, Vec3.length2_zero] at h20
        show sq (Vec3.length2 (boidAt bs i).velocity) = 0
        rw [hveq, Vec3.length2_zero]
        exact pow_eq_zero_iff two_ne_zero |>.mp h20
    exact ⟨nearbyRecord sq bs i j,
      mem_getNearbyBoids.mpr
        ⟨j, hj, hc, rfl, neighborCond_voxel_block hR (hsq j hj) hc⟩, rfl⟩

/-- C7 witness: the predicate characterisation instantiated at the
two-boid configuration, querying agent 0 about candidate 1. -/
theorem C7_fov_predicate_witness :
    (∃ nb ∈ getNearbyBoids defaultFlocker sqW
        [mkBoid Vec3.zero ⟨3, 4, 0⟩, mkBoid ⟨3, 4, 0⟩ Vec3.zero] 0, nb.boid = 1) ↔
      (1 < ([mkBoid Vec3.zero ⟨3, 4, 0⟩, mkBoid ⟨3, 4, 0⟩ Vec3.zero] : List Boid).length ∧
       1 ≠ 0 ∧
       lengthV sqW (Vec3.sub
           (boidAt [mkBoid Vec3.zero ⟨3, 4, 0⟩, mkBoid ⟨3, 4, 0⟩ Vec3.zero] 1).position
           (boidAt [mkBoid Vec3.zero ⟨3, 4, 0⟩, mkBoid ⟨3, 4, 0⟩ Vec3.zero] 0).position) ≤
         defaultFlocker.PerceptionRadius ∧
       ((if lengthV sqW (Vec3.sub
               (boidAt [mkBoid Vec3.zero ⟨3, 4, 0⟩, mkBoid ⟨3, 4, 0⟩ Vec3.zero] 1).position
               (boidAt [mkBoid Vec3.zero ⟨3, 4, 0⟩, mkBoid ⟨3, 4, 0⟩ Vec3.zero] 0).position) ≠ 0 ∧
             lengthV sqW (boidAt [mkBoid Vec3.zero ⟨3, 4, 0⟩, mkBoid ⟨3, 4, 0⟩ Vec3.zero] 0).velocity ≠ 0
         then Vec3.dot (Vec3.neg (boidAt [mkBoid Vec3.zero ⟨3, 4, 0⟩, mkBoid ⟨3, 4, 0⟩ Vec3.zero] 0).velocity)
               (Vec3.sub
                 (boidAt [mkBoid Vec3.zero ⟨3, 4, 0⟩, mkBoid ⟨3, 4, 0⟩ Vec3.zero] 1).position
                 (boidAt [mkBoid Vec3.zero ⟨3, 4, 0⟩, mkBoid ⟨3, 4, 0⟩ Vec3.zero] 0).position) /
               (lengthV sqW (Vec3.sub
                   (boidAt [mkBoid Vec3.zero ⟨3, 4, 0⟩, mkBoid ⟨3, 4, 0⟩ Vec3.zero] 1).position
                   (boidAt [mkBoid Vec3.zero ⟨3, 4, 0⟩, mkBoid ⟨3, 4, 0⟩ Vec3.zero] 0).position) *
                 lengthV sqW (boidAt [mkBoid Vec3.zero ⟨3, 4, 0⟩, mkBoid ⟨3, 4, 0⟩ Vec3.zero] 0).velocity)
         else 0) < defaultFlocker.FOVAngleDegCompareValue ∨
        (boidAt [mkBoid Vec3.zero ⟨3, 4, 0⟩, mkBoid ⟨3, 4, 0⟩ Vec3.zero] 0).velocity = Vec3.zero)) :=
  C7_fov_predicate defaultFlocker sqW
    [mkBoid Vec3.zero ⟨3, 4, 0⟩, mkBoid ⟨3, 4, 0⟩ Vec3.zero] 0 1
    (by norm_num [defaultFlocker])
    (by
      intro k hk
      have hk2 : k < 2 := by simpa using hk
      clear hk
      interval_cases k
      · rw [show Vec3.sub (boidAt [mkBoid Vec3.zero ⟨3, 4, 0⟩, mkBoid ⟨3, 4, 0⟩ Vec3.zero] 0).position
            (boidAt [mkBoid Vec3.zero ⟨3, 4, 0⟩, mkBoid ⟨3, 4, 0⟩ Vec3.zero] 0).position = Vec3.zero
          from Vec3.sub_self _, Vec3.length2_zero, sqW_zero]
        norm_num
      · have hv : Vec3.length2 (Vec3.sub
            (boidAt [mkBoid Vec3.zero ⟨3, 4, 0⟩, mkBoid ⟨3, 4, 0⟩ Vec3.zero] 1).position
            (boidAt [mkBoid Vec3.zero ⟨3, 4, 0⟩, mkBoid ⟨3, 4, 0⟩ Vec3.zero] 0).position) = 25 := by
          norm_num [boidAt, mkBoid, Vec3.sub, Vec3.length2, Vec3.dot, Vec3.zero]
        rw [hv, sqW_twentyfive]
        norm_num)
    (by
      have hv : Vec3.length2 (boidAt
          [mkBoid Vec3.zero ⟨3, 4, 0⟩, mkBoid ⟨3, 4, 0⟩ Vec3.zero] 0).velocity = 25 := by
        norm_num [boidAt, mkBoid, Vec3.length2, Vec3.dot]
      rw [hv, sqW_twentyfive]
      norm_num)

lemma Vec3.length2_sub_comm (a b : Vec3) :
    (Vec3.sub a b).length2 = (Vec3.sub b a).length2 := by
  obtain ⟨a1, a2, a3⟩ := a
  obtain ⟨b1, b2, b3⟩ := b
  simp only [Vec3.sub, Vec3.length2, Vec3.dot]
  ring

/-- Squared length of the in-plane component: projecting out the normal
direction removes exactly the squared normal coordinate (needs a unit
normal, the Pythagoras step behind the `CPlength` computation). -/
lemma Vec3.length2_proj_sub (c p n : Vec3) (hn : Vec3.length2 n = 1) :
    Vec3.length2 (Vec3.sub (Vec3.sub c (Vec3.smul (Vec3.dot n (Vec3.sub c p)) n)) p) =
      Vec3.length2 (Vec3.sub c p) - Vec3.dot n (Vec3.sub c p) ^ 2 := by
  obtain ⟨c1, c2, c3⟩ := c
  obtain ⟨p1, p2, p3⟩ := p
  obtain ⟨n1, n2, n3⟩ := n
  simp only [Vec3.sub, Vec3.smul, Vec3.dot, Vec3.length2] at hn ⊢
  linear_combination (n1 * (c1 - p1) + n2 * (c2 - p2) + n3 * (c3 - p3)) ^ 2 * hn

lemma avoidanceDirection_inactive_seeing (f : Flocker) (sq : ℚ → ℚ) (b : Boid)
    (h : ¬(0 ≤ avoidDelta f b ∧ avoidB f b + sq (avoidDelta f b) ≤ 0)) :
    avoidanceDirection f sq b = (b.velocity, { b with avoidance := false }) := by
  simp only [avoidanceDirection]
  rw [if_pos h]

lemma avoidanceDirection_inactive_range (f : Flocker) (sq : ℚ → ℚ) (b : Boid)
    (h1 : 0 ≤ avoidDelta f b ∧ avoidB f b + sq (avoidDelta f b) ≤ 0)
    (h2 : f.CollisionRadius + 1/2 ≤
      -(avoidB f b + sq (avoidDelta f b)) * lengthV sq b.velocity / (2 * avoidA b)) :
    avoidanceDirection f sq b = (b.velocity, { b with avoidance := false }) := by
  simp only [avoidanceDirection]
  rw [if_neg (not_not.mpr h1), if_pos h2]

/-- C4 (amended): the discriminant square roots are reached only under
the `delta >= 0` guard (built into the seeing-check conjunction), and in
the avoidance-active branch the square-root arguments
`r2 - dot(motion_normal, center - position)^2` (argument of line 298)
and `1 - sin_theta^2` (argument of line 305, which is `avoidArg2`) are
non-negative PROVIDED the agent velocity is nonzero, the motion normal
is unit, and `dot(motion_normal, center - position)^2 <= r2` — the
counterexample recorded for this claim shows the original unconditional
claim false, so these hypotheses are the needed repair. -/
theorem C4_active_sqrt_args_nonneg (f : Flocker) (sq : ℚ → ℚ) (b : Boid)
    (hact : (avoidanceDirection f sq b).2.avoidance = true)
    (ha : avoidA b ≠ 0)
    (hn : Vec3.length2 b.motion_normal = 1)
    (hdot : avoidDotc f b ^ 2 ≤ (f.CollisionRadius + 1/2) * (f.CollisionRadius + 1/2))
    (hsd : 0 ≤ avoidDelta f b →
      0 ≤ sq (avoidDelta f b) ∧ sq (avoidDelta f b) ^ 2 = avoidDelta f b)
    (hs1 : 0 ≤ avoidArg1 f b →
      0 ≤ sq (avoidArg1 f b) ∧ sq (avoidArg1 f b) ^ 2 = avoidArg1 f b)
    (hsC : 0 ≤ sq (Vec3.length2 (Vec3.sub (avoidCproj f b) b.position)) ∧
      sq (Vec3.length2 (Vec3.sub (avoidCproj f b) b.position)) ^ 2 =
        Vec3.length2 (Vec3.sub (avoidCproj f b) b.position)) :
    0 ≤ avoidArg1 f b ∧ 0 ≤ avoidArg2 f sq b := by
  have harg1 : 0 ≤ avoidArg1 f b := by
    unfold avoidArg1
    linarith
  refine ⟨harg1, ?_⟩
  obtain ⟨hseeing, hrange⟩ := (avoidance_active_iff f sq b).mp hact
  obtain ⟨hsd0, hsd2⟩ := hsd hseeing.1
  have hapos : 0 < avoidA b :=
    lt_of_le_of_ne (Vec3.length2_nonneg _) (Ne.symm ha)
  have hC0 : 0 ≤ avoidC f b := by
    by_contra hneg
    push_neg at hneg
    have hd : avoidB f b ^ 2 < avoidDelta f b := by
      unfold avoidDelta
      nlinarith
    have hsle : sq (avoidDelta f b) ≤ -avoidB f b := by linarith [hseeing.2]
    have hmul := mul_self_le_mul_self hsd0 hsle
    nlinarith
  have hlen2 : (f.CollisionRadius + 1/2) * (f.CollisionRadius + 1/2) ≤
      Vec3.length2 (Vec3.sub b.position f.CollisionCenter) := by
    unfold avoidC at hC0
    linarith
  have hCP : Vec3.length2 (Vec3.sub (avoidCproj f b) b.position) =
      Vec3.length2 (Vec3.sub f.CollisionCenter b.position) - avoidDotc f b ^ 2 := by
    unfold avoidCproj avoidDotc
    exact Vec3.length2_proj_sub f.CollisionCenter b.position b.motion_normal hn
  have hA1le : avoidArg1 f b ≤
      Vec3.length2 (Vec3.sub (avoidCproj f b) b.position) := by
    rw [hCP]
    unfold avoidArg1
    have hcomm := Vec3.length2_sub_comm b.position f.CollisionCenter
    linarith
  obtain ⟨hs10, hs12⟩ := hs1 harg1
  obtain ⟨hsC0, hsC2⟩ := hsC
  unfold avoidArg2 lengthV
  rcases eq_or_lt_of_le hsC0 with hCP0 | hCPpos
  · rw [← hCP0]
    simp
  · have hCP2pos : 0 < Vec3.length2 (Vec3.sub (avoidCproj f b) b.position) := by
      rw [← hsC2]
      exact pow_pos hCPpos 2
    have hdivpow : (sq (avoidArg1 f b) /
        sq (Vec3.length2 (Vec3.sub (avoidCproj f b) b.position))) ^ 2 =
          avoidArg1 f b / Vec3.length2 (Vec3.sub (avoidCproj f b) b.position) := by
      rw [div_pow, hs12, hsC2]
    rw [hdivpow]
    have := (div_le_one hCP2pos).mpr hA1le
    linarith

/-- C4 counterexample: an agent state (unit motion normal `(1,0,0)`,
position `(-2,0,0)`, velocity `(1,0,0)`, default collision sphere of
radius 1 at the origin) for which the avoidance-active branch IS taken
yet the argument `r2 - dot(motion_normal, center - position)^2` of the
square root on line 298 is negative (`= -7/4`): the claim that every
square root inside `avoidanceDirection` has a non-negative argument for
every agent state is false. -/
theorem C4_active_sqrt_arg_negative_cex :
    (avoidanceDirection defaultFlocker sqW
        { mkBoid ⟨-2, 0, 0⟩ ⟨1, 0, 0⟩ with motion_normal := ⟨1, 0, 0⟩ }).2.avoidance = true ∧
    avoidArg1 defaultFlocker
        { mkBoid ⟨-2, 0, 0⟩ ⟨1, 0, 0⟩ with motion_normal := ⟨1, 0, 0⟩ } < 0 := by
  have hA : avoidA { mkBoid ⟨-2, 0, 0⟩ ⟨1, 0, 0⟩ with motion_normal := ⟨1, 0, 0⟩ } = 1 := by
    norm_num [avoidA, Vec3.length2, Vec3.dot, mkBoid]
  have hB : avoidB defaultFlocker
      { mkBoid ⟨-2, 0, 0⟩ ⟨1, 0, 0⟩ with motion_normal := ⟨1, 0, 0⟩ } = -4 := by
    norm_num [avoidB, Vec3.dot, Vec3.smul, Vec3.sub, mkBoid, defaultFlocker, Vec3.zero]
  have hD : avoidDelta defaultFlocker
      { mkBoid ⟨-2, 0, 0⟩ ⟨1, 0, 0⟩ with motion_normal := ⟨1, 0, 0⟩ } = 9 := by
    norm_num [avoidDelta, avoidA, avoidB, avoidC, Vec3.length2, Vec3.dot, Vec3.sub,
      Vec3.smul, mkBoid, defaultFlocker, Vec3.zero]
  have hL : lengthV sqW
      ({ mkBoid ⟨-2, 0, 0⟩ ⟨1, 0, 0⟩ with motion_normal := ⟨1, 0, 0⟩ } : Boid).velocity = 1 := by
    have h2 : Vec3.length2
        ({ mkBoid ⟨-2, 0, 0⟩ ⟨1, 0, 0⟩ with motion_normal := ⟨1, 0, 0⟩ } : Boid).velocity = 1 := by
      norm_num [Vec3.length2, Vec3.dot, mkBoid]
    unfold lengthV
    rw [h2, sqW_one]
  constructor
  · rw [avoidance_active_iff, hD, hB, hA, hL, sqW_nine]
    norm_num [defaultFlocker]
  · norm_num [avoidArg1, avoidDotc, Vec3.dot, Vec3.sub, mkBoid, defaultFlocker, Vec3.zero]

/-- C4 witness: the amended statement at a concrete active input (sphere
radius 3/2, agent at `(-2,0,0)` moving `(1,0,0)`, default unit motion
normal `(0,0,1)`), where both square-root arguments evaluate to
non-negative perfect squares. -/
theorem C4_active_sqrt_args_nonneg_witness :
    0 ≤ avoidArg1 { defaultFlocker with CollisionRadius := 3/2 }
        (mkBoid ⟨-2, 0, 0⟩ ⟨1, 0, 0⟩) ∧
    0 ≤ avoidArg2 { defaultFlocker with CollisionRadius := 3/2 } sqW
        (mkBoid ⟨-2, 0, 0⟩ ⟨1, 0, 0⟩) :=
  C4_active_sqrt_args_nonneg { defaultFlocker with CollisionRadius := 3/2 } sqW
    (mkBoid ⟨-2, 0, 0⟩ ⟨1, 0, 0⟩)
    (by
      have hA : avoidA (mkBoid ⟨-2, 0, 0⟩ ⟨1, 0, 0⟩) = 1 := by
        norm_num [avoidA, Vec3.length2, Vec3.dot, mkBoid]
      have hB : avoidB { defaultFlocker with CollisionRadius := 3/2 }
          (mkBoid ⟨-2, 0, 0⟩ ⟨1, 0, 0⟩) = -4 := by
        norm_num [avoidB, Vec3.dot, Vec3.smul, Vec3.sub, mkBoid, defaultFlocker, Vec3.zero]
      have hD : avoidDelta { defaultFlocker with CollisionRadius := 3/2 }
          (mkBoid ⟨-2, 0, 0⟩ ⟨1, 0, 0⟩) = 16 := by
        norm_num [avoidDelta, avoidA, avoidB, avoidC, Vec3.length2, Vec3.dot, Vec3.sub,
          Vec3.smul, mkBoid, defaultFlocker, Vec3.zero]
      have hL : lengthV sqW (mkBoid ⟨-2, 0, 0⟩ ⟨1, 0, 0⟩).velocity = 1 := by
        have h2 : Vec3.length2 (mkBoid ⟨-2, 0, 0⟩ ⟨1, 0, 0⟩).velocity = 1 := by
          norm_num [Vec3.length2, Vec3.dot, mkBoid]
        unfold lengthV
        rw [h2, sqW_one]
      rw [avoidance_active_iff, hD, hB, hA, hL, sqW_sixteen]
      norm_num [defaultFlocker])
    (by norm_num [avoidA, Vec3.length2, Vec3.dot, mkBoid])
    (by norm_num [Vec3.length2, Vec3.dot, mkBoid])
    (by norm_num [avoidDotc, Vec3.dot, Vec3.sub, mkBoid, defaultFlocker, Vec3.zero])
    (by
      intro h
      have hD : avoidDelta { defaultFlocker with CollisionRadius := 3/2 }
          (mkBoid ⟨-2, 0, 0⟩ ⟨1, 0, 0⟩) = 16 := by
        norm_num [avoidDelta, avoidA, avoidB, avoidC, Vec3.length2, Vec3.dot, Vec3.sub,
          Vec3.smul, mkBoid, defaultFlocker, Vec3.zero]
      rw [hD, sqW_sixteen]
      norm_num)
    (by
      intro h
      have h1 : avoidArg1 { defaultFlocker with CollisionRadius := 3/2 }
          (mkBoid ⟨-2, 0, 0⟩ ⟨1, 0, 0⟩) = 4 := by
        norm_num [avoidArg1, avoidDotc, Vec3.dot, Vec3.sub, mkBoid, defaultFlocker, Vec3.zero]
      rw [h1, sqW_four]
      norm_num)
    (by
      have hC : Vec3.length2 (Vec3.sub
          (avoidCproj { defaultFlocker with CollisionRadius := 3/2 }
            (mkBoid ⟨-2, 0, 0⟩ ⟨1, 0, 0⟩))
          (mkBoid ⟨-2, 0, 0⟩ ⟨1, 0, 0⟩).position) = 4 := by
        norm_num [avoidCproj, avoidDotc, Vec3.length2, Vec3.dot, Vec3.sub, Vec3.smul,
          mkBoid, defaultFlocker, Vec3.zero]
      rw [hC, sqW_four]
      norm_num)

/-- Function `avoidanceDirection` writes only the avoidance flag of the boid it
is handed; every kinematic field passes through unchanged. -/
lemma avoidanceDirection_snd (f : Flocker) (sq : ℚ → ℚ) (b : Boid) :
    (avoidanceDirection f sq b).2 =
      { b with avoidance := (avoidanceDirection f sq b).2.avoidance } := by
  simp only [avoidanceDirection]
  split
  · rfl
  · split <;> rfl

/-- One integration-loop pass when the avoidance blend does not fire
(flag clear): clamp the velocity advanced by `acceleration * dt`, move,
then apply the (source-verbatim) inside-sphere fallback. -/
lemma integrateBoid_no_blend (g : Flocker) (sq : ℚ → ℚ) (dt : ℚ) (b : Boid)
    (hflag : (avoidanceDirection g sq b).2.avoidance = false) :
    integrateBoid g sq dt b =
      { b with
        avoidance := false
        velocity :=
          (if Vec3.length2 (Vec3.sub (Vec3.add b.position (Vec3.smul dt
                (clampLength sq (Vec3.add b.velocity (Vec3.smul dt b.acceleration))
                  g.MaxVelocity)))
              g.CollisionCenter) < g.CollisionRadius * g.CollisionRadius
           then Vec3.add
                  (clampLength sq (Vec3.add b.velocity (Vec3.smul dt b.acceleration))
                    g.MaxVelocity)
                  (Vec3.sub (Vec3.smul (1/10) (Vec3.add b.position (Vec3.smul dt
                    (clampLength sq (Vec3.add b.velocity (Vec3.smul dt b.acceleration))
                      g.MaxVelocity))))
                    g.CollisionCenter)
           else clampLength sq (Vec3.add b.velocity (Vec3.smul dt b.acceleration))
                  g.MaxVelocity)
        position := Vec3.add b.position (Vec3.smul dt
          (clampLength sq (Vec3.add b.velocity (Vec3.smul dt b.acceleration))
            g.MaxVelocity)) } := by
  have hsnd := avoidanceDirection_snd g sq b
  rw [hflag] at hsnd
  have hpre : preClampVel g sq dt b =
      Vec3.add b.velocity (Vec3.smul dt b.acceleration) := by
    simp only [preClampVel]
    rw [hsnd]
    simp
  simp only [integrateBoid]
  rw [hsnd, hpre]

/-- C2 (amended): after an `update` step, an agent whose post-integration
position does NOT lie strictly inside the collision sphere has squared
speed at most `MaxVelocity ^ 2` (so speed at most `MaxVelocity`, which
implies the claimed `MaxVelocity + eps` bound).  The counterexample
recorded for this claim shows the original claim — the same bound with
no precondition on the post-integration position — false: the safety
fallback of lines 118-120 adds to the velocity AFTER the clamp of
line 116. -/
theorem C2_velocity_bound_outside (f : Flocker) (cosv : ℚ) (sq : ℚ → ℚ)
    (rnd : ℕ → ℕ → Vec3) (dt : ℚ) (bs : List Boid) (i : ℕ)
    (hi : i < bs.length) (hM : 0 ≤ f.MaxVelocity)
    (hsq : 0 ≤ sq (Vec3.length2 (preClampVel (midFlocker f cosv) sq dt
        (midBoid f cosv sq rnd bs i))) ∧
      sq (Vec3.length2 (preClampVel (midFlocker f cosv) sq dt
        (midBoid f cosv sq rnd bs i))) ^ 2 =
        Vec3.length2 (preClampVel (midFlocker f cosv) sq dt
          (midBoid f cosv sq rnd bs i)))
    (hout : ¬ Vec3.length2 (Vec3.sub
        (boidAt (update f cosv sq rnd dt bs).2 i).position f.CollisionCenter) <
        f.CollisionRadius * f.CollisionRadius) :
    Vec3.length2 (boidAt (update f cosv sq rnd dt bs).2 i).velocity ≤
      f.MaxVelocity ^ 2 := by
  obtain ⟨-, -, hMV, hCR, hCC⟩ := midFlocker_fields f cosv
  rw [boidAt_update f cosv sq rnd dt bs i hi] at hout ⊢
  simp only [integrateBoid] at hout ⊢
  rw [hMV] at hout ⊢
  rw [hCC, hCR]
  rw [if_neg hout]
  exact clampLength_length2_le sq _ _ hsq.1 hsq.2 hM

/-- Full trace of one `update` call on a single-boid flock with no
steering targets and avoidance inactive: phase 1 stores zero
acceleration, phase 2 clamps, moves, and applies the fallback check. -/
lemma update_singleton_trace (f : Flocker) (cosv : ℚ) (sq : ℚ → ℚ)
    (rnd : ℕ → ℕ → Vec3) (dt : ℚ) (b : Boid)
    (ht : f.SteeringTargets = [])
    (hs0 : sq 0 = 0) (hMA : 0 ≤ f.MaxAcceleration)
    (hflag : (avoidanceDirection f sq { b with acceleration := Vec3.zero }).2.avoidance = false) :
    boidAt (update f cosv sq rnd dt [b]).2 0 =
      { b with
        acceleration := Vec3.zero
        avoidance := false
        velocity :=
          (if Vec3.length2 (Vec3.sub (Vec3.add b.position (Vec3.smul dt
                (clampLength sq (Vec3.add b.velocity (Vec3.smul dt Vec3.zero))
                  f.MaxVelocity)))
              f.CollisionCenter) < f.CollisionRadius * f.CollisionRadius
           then Vec3.add
                  (clampLength sq (Vec3.add b.velocity (Vec3.smul dt Vec3.zero))
                    f.MaxVelocity)
                  (Vec3.sub (Vec3.smul (1/10) (Vec3.add b.position (Vec3.smul dt
                    (clampLength sq (Vec3.add b.velocity (Vec3.smul dt Vec3.zero))
                      f.MaxVelocity))))
                    f.CollisionCenter)
           else clampLength sq (Vec3.add b.velocity (Vec3.smul dt Vec3.zero))
                  f.MaxVelocity)
        position := Vec3.add b.position (Vec3.smul dt
          (clampLength sq (Vec3.add b.velocity (Vec3.smul dt Vec3.zero))
            f.MaxVelocity)) } := by
  obtain ⟨hst, hMA', hMV, hCR, hCC⟩ := midFlocker_fields f cosv
  have hmb : midBoid f cosv sq rnd [b] 0 = { b with acceleration := Vec3.zero } := by
    unfold midBoid
    rw [updateBoid_isolated (midFlocker f cosv) sq _ [b] 0
      (getNearbyBoids_singleton _ _ _) (hst.trans ht) hs0 (by rw [hMA']; exact hMA)]
    rfl
  have hflagmid : (avoidanceDirection (midFlocker f cosv) sq
      { b with acceleration := Vec3.zero }).2.avoidance = false := by
    rw [avoidanceDirection_congr f (midFlocker f cosv) sq _ hCR hCC]
    exact hflag
  rw [boidAt_update f cosv sq rnd dt [b] 0 (by norm_num)]
  rw [hmb]
  rw [integrateBoid_no_blend (midFlocker f cosv) sq dt _ hflagmid]
  rw [hMV, hCR, hCC]

/-- C2 witness: the amended velocity bound at a concrete input, an agent
at `(10,0,0)` moving away from the default collision sphere. -/
theorem C2_velocity_bound_outside_witness :
    Vec3.length2 (boidAt (update defaultFlocker 0 sqW (fun _ _ => Vec3.zero) 1
        [mkBoid ⟨10, 0, 0⟩ ⟨1, 0, 0⟩]).2 0).velocity ≤
      defaultFlocker.MaxVelocity ^ 2 :=
  C2_velocity_bound_outside defaultFlocker 0 sqW (fun _ _ => Vec3.zero) 1
    [mkBoid ⟨10, 0, 0⟩ ⟨1, 0, 0⟩] 0 (by norm_num) (by norm_num [defaultFlocker])
    (by
      have hmf : midFlocker defaultFlocker 0 = defaultFlocker := by
        norm_num [midFlocker, phase1Flocker, defaultFlocker]
      have havB : avoidanceDirection defaultFlocker sqW (mkBoid ⟨10, 0, 0⟩ ⟨1, 0, 0⟩) =
          ((mkBoid ⟨10, 0, 0⟩ ⟨1, 0, 0⟩).velocity,
            { mkBoid ⟨10, 0, 0⟩ ⟨1, 0, 0⟩ with avoidance := false }) := by
        apply avoidanceDirection_inactive_seeing
        have hD : avoidDelta defaultFlocker (mkBoid ⟨10, 0, 0⟩ ⟨1, 0, 0⟩) = 9 := by
          norm_num [avoidDelta, avoidA, avoidB, avoidC, Vec3.length2, Vec3.dot,
            Vec3.sub, Vec3.smul, mkBoid, defaultFlocker, Vec3.zero]
        have hBq : avoidB defaultFlocker (mkBoid ⟨10, 0, 0⟩ ⟨1, 0, 0⟩) = 20 := by
          norm_num [avoidB, Vec3.dot, Vec3.smul, Vec3.sub, mkBoid, defaultFlocker, Vec3.zero]
        rw [hD, hBq, sqW_nine]
        norm_num
      have hmb : midBoid defaultFlocker 0 sqW (fun _ _ => Vec3.zero)
          [mkBoid ⟨10, 0, 0⟩ ⟨1, 0, 0⟩] 0 = mkBoid ⟨10, 0, 0⟩ ⟨1, 0, 0⟩ := by
        unfold midBoid
        rw [hmf]
        rw [updateBoid_isolated defaultFlocker sqW _ _ 0
          (getNearbyBoids_singleton _ _ _) rfl sqW_zero (by norm_num [defaultFlocker])]
        rfl
      have hpre : preClampVel (midFlocker defaultFlocker 0) sqW 1
          (midBoid defaultFlocker 0 sqW (fun _ _ => Vec3.zero)
            [mkBoid ⟨10, 0, 0⟩ ⟨1, 0, 0⟩] 0) = Vec3.mk 1 0 0 := by
        rw [hmf, hmb]
        simp only [preClampVel]
        rw [show (avoidanceDirection defaultFlocker sqW (mkBoid ⟨10, 0, 0⟩ ⟨1, 0, 0⟩)).2 =
            { mkBoid ⟨10, 0, 0⟩ ⟨1, 0, 0⟩ with avoidance := false } from by rw [havB]]
        simp
        norm_num [mkBoid, Vec3.add, Vec3.smul, Vec3.zero]
      rw [hpre]
      rw [show Vec3.length2 (Vec3.mk 1 0 0) = 1 from by
        norm_num [Vec3.length2, Vec3.dot], sqW_one]
      norm_num)
    (by
      have hseeing : ¬(0 ≤ avoidDelta defaultFlocker (mkBoid ⟨10, 0, 0⟩ ⟨1, 0, 0⟩) ∧
          avoidB defaultFlocker (mkBoid ⟨10, 0, 0⟩ ⟨1, 0, 0⟩) +
            sqW (avoidDelta defaultFlocker (mkBoid ⟨10, 0, 0⟩ ⟨1, 0, 0⟩)) ≤ 0) := by
        have hD : avoidDelta defaultFlocker (mkBoid ⟨10, 0, 0⟩ ⟨1, 0, 0⟩) = 9 := by
          norm_num [avoidDelta, avoidA, avoidB, avoidC, Vec3.length2, Vec3.dot,
            Vec3.sub, Vec3.smul, mkBoid, defaultFlocker, Vec3.zero]
        have hBq : avoidB defaultFlocker (mkBoid ⟨10, 0, 0⟩ ⟨1, 0, 0⟩) = 20 := by
          norm_num [avoidB, Vec3.dot, Vec3.smul, Vec3.sub, mkBoid, defaultFlocker,
            Vec3.zero]
        rw [hD, hBq, sqW_nine]
        norm_num
      have hflag : (avoidanceDirection defaultFlocker sqW
          { mkBoid ⟨10, 0, 0⟩ ⟨1, 0, 0⟩ with acceleration := Vec3.zero }).2.avoidance = false := by
        show (avoidanceDirection defaultFlocker sqW
          (mkBoid ⟨10, 0, 0⟩ ⟨1, 0, 0⟩)).2.avoidance = false
        rw [avoidanceDirection_inactive_seeing defaultFlocker sqW
          (mkBoid ⟨10, 0, 0⟩ ⟨1, 0, 0⟩) hseeing]
      rw [update_singleton_trace defaultFlocker 0 sqW (fun _ _ => Vec3.zero) 1
        (mkBoid ⟨10, 0, 0⟩ ⟨1, 0, 0⟩) rfl sqW_zero (by norm_num [defaultFlocker]) hflag]
      have hclamp : clampLength sqW (Vec3.add (mkBoid ⟨10, 0, 0⟩ ⟨1, 0, 0⟩).velocity
          (Vec3.smul 1 Vec3.zero)) defaultFlocker.MaxVelocity = Vec3.mk 1 0 0 := by
        rw [show Vec3.add (mkBoid ⟨10, 0, 0⟩ ⟨1, 0, 0⟩).velocity (Vec3.smul 1 Vec3.zero) =
          Vec3.mk 1 0 0 from by norm_num [mkBoid, Vec3.add, Vec3.smul, Vec3.zero]]
        unfold clampLength lengthV
        rw [show Vec3.length2 (Vec3.mk 1 0 0) = (1:ℚ) from by
          norm_num [Vec3.length2, Vec3.dot], sqW_one]
        rw [if_neg (by norm_num [defaultFlocker])]
      rw [hclamp]
      norm_num [mkBoid, Vec3.add, Vec3.smul, Vec3.sub, Vec3.length2, Vec3.dot,
        defaultFlocker, Vec3.zero])

/-- C2 counterexample: an agent that integrates into the collision
sphere (centre `(1000,0,0)`, radius 1).  The safety fallback of
lines 118-120 then adds `0.1 * position - center` to the velocity AFTER
the clamp, leaving speed `899.01`, far above `MaxVelocity + 1 = 6`:
the unconditional velocity bound claimed for `update` is false. -/
theorem C2_velocity_bound_cex :
    Vec3.length2 (Vec3.sub (boidAt (update
        { defaultFlocker with CollisionCenter := ⟨1000, 0, 0⟩ } 0 sqW
        (fun _ _ => Vec3.zero) (99/10) [mkBoid ⟨990, 0, 0⟩ ⟨1, 0, 0⟩]).2 0).position
        ⟨1000, 0, 0⟩) < 1 ∧
    (boidAt (update { defaultFlocker with CollisionCenter := ⟨1000, 0, 0⟩ } 0 sqW
        (fun _ _ => Vec3.zero) (99/10) [mkBoid ⟨990, 0, 0⟩ ⟨1, 0, 0⟩]).2 0).velocity =
      ⟨-89901/100, 0, 0⟩ ∧
    ({ defaultFlocker with CollisionCenter := (⟨1000, 0, 0⟩ : Vec3) }.MaxVelocity + 1) ^ 2 <
      Vec3.length2 (boidAt (update { defaultFlocker with CollisionCenter := ⟨1000, 0, 0⟩ } 0 sqW
        (fun _ _ => Vec3.zero) (99/10) [mkBoid ⟨990, 0, 0⟩ ⟨1, 0, 0⟩]).2 0).velocity := by
  have hD : avoidDelta { defaultFlocker with CollisionCenter := ⟨1000, 0, 0⟩ }
      (mkBoid ⟨990, 0, 0⟩ ⟨1, 0, 0⟩) = 9 := by
    norm_num [avoidDelta, avoidA, avoidB, avoidC, Vec3.length2, Vec3.dot,
      Vec3.sub, Vec3.smul, mkBoid, defaultFlocker, Vec3.zero]
  have hBq : avoidB { defaultFlocker with CollisionCenter := ⟨1000, 0, 0⟩ }
      (mkBoid ⟨990, 0, 0⟩ ⟨1, 0, 0⟩) = -20 := by
    norm_num [avoidB, Vec3.dot, Vec3.smul, Vec3.sub, mkBoid, defaultFlocker, Vec3.zero]
  have hA : avoidA (mkBoid ⟨990, 0, 0⟩ ⟨1, 0, 0⟩) = 1 := by
    norm_num [avoidA, Vec3.length2, Vec3.dot, mkBoid]
  have hL : lengthV sqW (mkBoid ⟨990, 0, 0⟩ ⟨1, 0, 0⟩).velocity = 1 := by
    unfold lengthV
    rw [show Vec3.length2 (mkBoid ⟨990, 0, 0⟩ ⟨1, 0, 0⟩).velocity = 1 from by
      norm_num [Vec3.length2, Vec3.dot, mkBoid], sqW_one]
  have hflag : (avoidanceDirection { defaultFlocker with CollisionCenter := ⟨1000, 0, 0⟩ } sqW
      { mkBoid ⟨990, 0, 0⟩ ⟨1, 0, 0⟩ with acceleration := Vec3.zero }).2.avoidance = false := by
    show (avoidanceDirection { defaultFlocker with CollisionCenter := ⟨1000, 0, 0⟩ } sqW
      (mkBoid ⟨990, 0, 0⟩ ⟨1, 0, 0⟩)).2.avoidance = false
    rw [avoidanceDirection_inactive_range _ sqW _
      (by rw [hD, hBq, sqW_nine]; norm_num)
      (by rw [hD, hBq, sqW_nine, hL, hA]; norm_num [defaultFlocker])]
  rw [update_singleton_trace { defaultFlocker with CollisionCenter := ⟨1000, 0, 0⟩ } 0 sqW
    (fun _ _ => Vec3.zero) (99/10) (mkBoid ⟨990, 0, 0⟩ ⟨1, 0, 0⟩) rfl sqW_zero
    (by norm_num [defaultFlocker]) hflag]
  have hclamp : clampLength sqW (Vec3.add (mkBoid ⟨990, 0, 0⟩ ⟨1, 0, 0⟩).velocity
      (Vec3.smul (99/10) Vec3.zero))
      { defaultFlocker with CollisionCenter := (⟨1000, 0, 0⟩ : Vec3) }.MaxVelocity =
      Vec3.mk 1 0 0 := by
    rw [show Vec3.add (mkBoid ⟨990, 0, 0⟩ ⟨1, 0, 0⟩).velocity (Vec3.smul (99/10) Vec3.zero) =
      Vec3.mk 1 0 0 from by norm_num [mkBoid, Vec3.add, Vec3.smul, Vec3.zero]]
    unfold clampLength lengthV
    rw [show Vec3.length2 (Vec3.mk 1 0 0) = (1:ℚ) from by
      norm_num [Vec3.length2, Vec3.dot], sqW_one]
    rw [if_neg (by norm_num [defaultFlocker])]
  rw [hclamp]
  refine ⟨?_, ?_, ?_⟩ <;>
    norm_num [mkBoid, Vec3.add, Vec3.sub, Vec3.smul, Vec3.length2, Vec3.dot,
      defaultFlocker, Vec3.zero]

/-- C3 evaluation at the failing input: sphere centre `(10,0,0)`,
radius 1; the agent integrates to `(10.5, 0, 0)`, strictly inside the
unpadded sphere, so the fallback fires — but the source expression
`0.1f * boid.position - CollisionCenter` (precedence: only the position
is scaled) adds `(-8.95, 0, 0)`, whose dot product with
`position - center = (0.5, 0, 0)` is negative: the correction points
TOWARD the sphere centre, not away from it as the spec states. -/
theorem C3_fallback_points_at_center_eval :
    (boidAt (update { defaultFlocker with CollisionCenter := ⟨10, 0, 0⟩ } 0 sqW
        (fun _ _ => Vec3.zero) (99/10) [mkBoid ⟨3/5, 0, 0⟩ ⟨1, 0, 0⟩]).2 0).position =
      ⟨21/2, 0, 0⟩ ∧
    Vec3.length2 (Vec3.sub (boidAt (update
        { defaultFlocker with CollisionCenter := ⟨10, 0, 0⟩ } 0 sqW
        (fun _ _ => Vec3.zero) (99/10) [mkBoid ⟨3/5, 0, 0⟩ ⟨1, 0, 0⟩]).2 0).position
        ⟨10, 0, 0⟩) < 1 ∧
    (boidAt (update { defaultFlocker with CollisionCenter := ⟨10, 0, 0⟩ } 0 sqW
        (fun _ _ => Vec3.zero) (99/10) [mkBoid ⟨3/5, 0, 0⟩ ⟨1, 0, 0⟩]).2 0).velocity =
      ⟨-159/20, 0, 0⟩ ∧
    Vec3.dot
      (Vec3.sub (boidAt (update { defaultFlocker with CollisionCenter := ⟨10, 0, 0⟩ } 0 sqW
        (fun _ _ => Vec3.zero) (99/10) [mkBoid ⟨3/5, 0, 0⟩ ⟨1, 0, 0⟩]).2 0).velocity
        ⟨1, 0, 0⟩)
      (Vec3.sub (boidAt (update { defaultFlocker with CollisionCenter := ⟨10, 0, 0⟩ } 0 sqW
        (fun _ _ => Vec3.zero) (99/10) [mkBoid ⟨3/5, 0, 0⟩ ⟨1, 0, 0⟩]).2 0).position
        ⟨10, 0, 0⟩) < 0 := by
  have hD : avoidDelta { defaultFlocker with CollisionCenter := ⟨10, 0, 0⟩ }
      (mkBoid ⟨3/5, 0, 0⟩ ⟨1, 0, 0⟩) = 9 := by
    norm_num [avoidDelta, avoidA, avoidB, avoidC, Vec3.length2, Vec3.dot,
      Vec3.sub, Vec3.smul, mkBoid, defaultFlocker, Vec3.zero]
  have hBq : avoidB { defaultFlocker with CollisionCenter := ⟨10, 0, 0⟩ }
      (mkBoid ⟨3/5, 0, 0⟩ ⟨1, 0, 0⟩) = -94/5 := by
    norm_num [avoidB, Vec3.dot, Vec3.smul, Vec3.sub, mkBoid, defaultFlocker, Vec3.zero]
  have hA : avoidA (mkBoid ⟨3/5, 0, 0⟩ ⟨1, 0, 0⟩) = 1 := by
    norm_num [avoidA, Vec3.length2, Vec3.dot, mkBoid]
  have hL : lengthV sqW (mkBoid ⟨3/5, 0, 0⟩ ⟨1, 0, 0⟩).velocity = 1 := by
    unfold lengthV
    rw [show Vec3.length2 (mkBoid ⟨3/5, 0, 0⟩ ⟨1, 0, 0⟩).velocity = 1 from by
      norm_num [Vec3.length2, Vec3.dot, mkBoid], sqW_one]
  have hflag : (avoidanceDirection { defaultFlocker with CollisionCenter := ⟨10, 0, 0⟩ } sqW
      { mkBoid ⟨3/5, 0, 0⟩ ⟨1, 0, 0⟩ with acceleration := Vec3.zero }).2.avoidance = false := by
    show (avoidanceDirection { defaultFlocker with CollisionCenter := ⟨10, 0, 0⟩ } sqW
      (mkBoid ⟨3/5, 0, 0⟩ ⟨1, 0, 0⟩)).2.avoidance = false
    rw [avoidanceDirection_inactive_range _ sqW _
      (by rw [hD, hBq, sqW_nine]; norm_num)
      (by rw [hD, hBq, sqW_nine, hL, hA]; norm_num [defaultFlocker])]
  rw [update_singleton_trace { defaultFlocker with CollisionCenter := ⟨10, 0, 0⟩ } 0 sqW
    (fun _ _ => Vec3.zero) (99/10) (mkBoid ⟨3/5, 0, 0⟩ ⟨1, 0, 0⟩) rfl sqW_zero
    (by norm_num [defaultFlocker]) hflag]
  have hclamp : clampLength sqW (Vec3.add (mkBoid ⟨3/5, 0, 0⟩ ⟨1, 0, 0⟩).velocity
      (Vec3.smul (99/10) Vec3.zero))
      { defaultFlocker with CollisionCenter := (⟨10, 0, 0⟩ : Vec3) }.MaxVelocity =
      Vec3.mk 1 0 0 := by
    rw [show Vec3.add (mkBoid ⟨3/5, 0, 0⟩ ⟨1, 0, 0⟩).velocity (Vec3.smul (99/10) Vec3.zero) =
      Vec3.mk 1 0 0 from by norm_num [mkBoid, Vec3.add, Vec3.smul, Vec3.zero]]
    unfold clampLength lengthV
    rw [show Vec3.length2 (Vec3.mk 1 0 0) = (1:ℚ) from by
      norm_num [Vec3.length2, Vec3.dot], sqW_one]
    rw [if_neg (by norm_num [defaultFlocker])]
  rw [hclamp]
  refine ⟨?_, ?_, ?_, ?_⟩ <;>
    norm_num [mkBoid, Vec3.add, Vec3.sub, Vec3.smul, Vec3.length2, Vec3.dot,
      defaultFlocker, Vec3.zero]

/-- C8 counterexample: an isolated agent with no targets, far from the
obstacle and with avoidance inactive, but with pre-step speed 100 above
`MaxVelocity = 5`: acceleration is exactly zero as claimed, yet after
one step with `dt = 1` the velocity is clamped to `(5,0,0)` (changed)
and the position advances by the clamped velocity, not the pre-step
velocity — the scenario claim needs the pre-step speed to be at most
`MaxVelocity`. -/
theorem C8_isolated_agent_cex :
    (boidAt (update { defaultFlocker with CollisionCenter := ⟨0, 1000, 0⟩ } 0 sqW
        (fun _ _ => Vec3.zero) 1 [mkBoid Vec3.zero ⟨100, 0, 0⟩]).2 0).acceleration =
      Vec3.zero ∧
    (boidAt (update { defaultFlocker with CollisionCenter := ⟨0, 1000, 0⟩ } 0 sqW
        (fun _ _ => Vec3.zero) 1 [mkBoid Vec3.zero ⟨100, 0, 0⟩]).2 0).avoidance = false ∧
    ¬ Vec3.length2 (Vec3.sub (boidAt (update
        { defaultFlocker with CollisionCenter := ⟨0, 1000, 0⟩ } 0 sqW
        (fun _ _ => Vec3.zero) 1 [mkBoid Vec3.zero ⟨100, 0, 0⟩]).2 0).position
        ⟨0, 1000, 0⟩) < 1 ∧
    (boidAt (update { defaultFlocker with CollisionCenter := ⟨0, 1000, 0⟩ } 0 sqW
        (fun _ _ => Vec3.zero) 1 [mkBoid Vec3.zero ⟨100, 0, 0⟩]).2 0).velocity =
      ⟨5, 0, 0⟩ ∧
    (boidAt (update { defaultFlocker with CollisionCenter := ⟨0, 1000, 0⟩ } 0 sqW
        (fun _ _ => Vec3.zero) 1 [mkBoid Vec3.zero ⟨100, 0, 0⟩]).2 0).velocity ≠
      (mkBoid Vec3.zero ⟨100, 0, 0⟩).velocity ∧
    (boidAt (update { defaultFlocker with CollisionCenter := ⟨0, 1000, 0⟩ } 0 sqW
        (fun _ _ => Vec3.zero) 1 [mkBoid Vec3.zero ⟨100, 0, 0⟩]).2 0).position ≠
      Vec3.add (mkBoid Vec3.zero ⟨100, 0, 0⟩).position
        (mkBoid Vec3.zero ⟨100, 0, 0⟩).velocity := by
  have hD : avoidDelta { defaultFlocker with CollisionCenter := ⟨0, 1000, 0⟩ }
      (mkBoid Vec3.zero ⟨100, 0, 0⟩) = -39999910000 := by
    norm_num [avoidDelta, avoidA, avoidB, avoidC, Vec3.length2, Vec3.dot,
      Vec3.sub, Vec3.smul, mkBoid, defaultFlocker, Vec3.zero]
  have hflag : (avoidanceDirection { defaultFlocker with CollisionCenter := ⟨0, 1000, 0⟩ } sqW
      { mkBoid Vec3.zero ⟨100, 0, 0⟩ with acceleration := Vec3.zero }).2.avoidance = false := by
    show (avoidanceDirection { defaultFlocker with CollisionCenter := ⟨0, 1000, 0⟩ } sqW
      (mkBoid Vec3.zero ⟨100, 0, 0⟩)).2.avoidance = false
    rw [avoidanceDirection_inactive_seeing _ sqW _
      (by rw [hD]; intro h; exact absurd h.1 (by norm_num))]
  rw [update_singleton_trace { defaultFlocker with CollisionCenter := ⟨0, 1000, 0⟩ } 0 sqW
    (fun _ _ => Vec3.zero) 1 (mkBoid Vec3.zero ⟨100, 0, 0⟩) rfl sqW_zero
    (by norm_num [defaultFlocker]) hflag]
  have hclamp : clampLength sqW (Vec3.add (mkBoid Vec3.zero ⟨100, 0, 0⟩).velocity
      (Vec3.smul 1 Vec3.zero))
      { defaultFlocker with CollisionCenter := (⟨0, 1000, 0⟩ : Vec3) }.MaxVelocity =
      Vec3.mk 5 0 0 := by
    rw [show Vec3.add (mkBoid Vec3.zero ⟨100, 0, 0⟩).velocity (Vec3.smul 1 Vec3.zero) =
      Vec3.mk 100 0 0 from by norm_num [mkBoid, Vec3.add, Vec3.smul, Vec3.zero]]
    unfold clampLength lengthV normalizeV
    rw [show Vec3.length2 (Vec3.mk 100 0 0) = (10000:ℚ) from by
      norm_num [Vec3.length2, Vec3.dot], sqW_tenthousand]
    rw [if_pos (by norm_num [defaultFlocker])]
    unfold lengthV
    rw [show Vec3.length2 (Vec3.mk 100 0 0) = (10000:ℚ) from by
      norm_num [Vec3.length2, Vec3.dot], sqW_tenthousand]
    norm_num [Vec3.smul, defaultFlocker]
  rw [hclamp]
  refine ⟨?_, ?_, ?_, ?_, ?_, ?_⟩ <;>
    norm_num [mkBoid, Vec3.add, Vec3.sub, Vec3.smul, Vec3.length2, Vec3.dot,
      defaultFlocker, Vec3.zero]

/-- C8 (amended): a single agent with no steering targets, avoidance
inactive, post-step position not inside the collision sphere, AND
pre-step speed at most `MaxVelocity` (the hypothesis the recorded
counterexample shows is needed) gets exactly zero acceleration
from the force engine, and after one `update` with `dt = 1` its velocity
is unchanged and its position has advanced by exactly the pre-step
velocity. -/
theorem C8_isolated_agent (f : Flocker) (cosv : ℚ) (sq : ℚ → ℚ)
    (rnd : ℕ → ℕ → Vec3) (b : Boid)
    (ht : f.SteeringTargets = [])
    (hMA : 0 ≤ f.MaxAcceleration)
    (hs0 : sq 0 = 0)
    (hflag : (avoidanceDirection f sq { b with acceleration := Vec3.zero }).2.avoidance = false)
    (hv : sq (Vec3.length2 b.velocity) ≤ f.MaxVelocity)
    (hout : ¬ Vec3.length2 (Vec3.sub (Vec3.add b.position b.velocity) f.CollisionCenter) <
      f.CollisionRadius * f.CollisionRadius) :
    (boidAt (update f cosv sq rnd 1 [b]).2 0).acceleration = Vec3.zero ∧
    (boidAt (update f cosv sq rnd 1 [b]).2 0).velocity = b.velocity ∧
    (boidAt (update f cosv sq rnd 1 [b]).2 0).position = Vec3.add b.position b.velocity := by
  rw [update_singleton_trace f cosv sq rnd 1 b ht hs0 hMA hflag]
  have hclamp : clampLength sq (Vec3.add b.velocity (Vec3.smul 1 Vec3.zero))
      f.MaxVelocity = b.velocity := by
    rw [Vec3.smul_zero, Vec3.add_zero]
    unfold clampLength lengthV
    rw [if_neg (not_lt.mpr hv)]
  rw [hclamp, Vec3.one_smul]
  rw [if_neg hout]
  exact ⟨rfl, rfl, rfl⟩

/-- C8 witness: the amended isolated-agent scenario at a concrete input
(speed 5 = `MaxVelocity`, obstacle 100 units away). -/
theorem C8_isolated_agent_witness :
    (boidAt (update { defaultFlocker with CollisionCenter := ⟨100, 0, 0⟩ } 0 sqW
        (fun _ _ => Vec3.zero) 1 [mkBoid Vec3.zero ⟨3, 4, 0⟩]).2 0).acceleration =
      Vec3.zero ∧
    (boidAt (update { defaultFlocker with CollisionCenter := ⟨100, 0, 0⟩ } 0 sqW
        (fun _ _ => Vec3.zero) 1 [mkBoid Vec3.zero ⟨3, 4, 0⟩]).2 0).velocity =
      (mkBoid Vec3.zero ⟨3, 4, 0⟩).velocity ∧
    (boidAt (update { defaultFlocker with CollisionCenter := ⟨100, 0, 0⟩ } 0 sqW
        (fun _ _ => Vec3.zero) 1 [mkBoid Vec3.zero ⟨3, 4, 0⟩]).2 0).position =
      Vec3.add (mkBoid Vec3.zero ⟨3, 4, 0⟩).position (mkBoid Vec3.zero ⟨3, 4, 0⟩).velocity :=
  C8_isolated_agent { defaultFlocker with CollisionCenter := ⟨100, 0, 0⟩ } 0 sqW
    (fun _ _ => Vec3.zero) (mkBoid Vec3.zero ⟨3, 4, 0⟩) rfl
    (by norm_num [defaultFlocker]) sqW_zero
    (by
      have hD : avoidDelta { defaultFlocker with CollisionCenter := ⟨100, 0, 0⟩ }
          (mkBoid Vec3.zero ⟨3, 4, 0⟩) = -639775 := by
        norm_num [avoidDelta, avoidA, avoidB, avoidC, Vec3.length2, Vec3.dot,
          Vec3.sub, Vec3.smul, mkBoid, defaultFlocker, Vec3.zero]
      show (avoidanceDirection { defaultFlocker with CollisionCenter := ⟨100, 0, 0⟩ } sqW
        (mkBoid Vec3.zero ⟨3, 4, 0⟩)).2.avoidance = false
      rw [avoidanceDirection_inactive_seeing _ sqW _
        (by rw [hD]; intro h; exact absurd h.1 (by norm_num))])
    (by
      rw [show Vec3.length2 (mkBoid Vec3.zero ⟨3, 4, 0⟩).velocity = 25 from by
        norm_num [Vec3.length2, Vec3.dot, mkBoid], sqW_twentyfive]
      norm_num [defaultFlocker])
    (by
      norm_num [mkBoid, Vec3.add, Vec3.sub, Vec3.length2, Vec3.dot, defaultFlocker,
        Vec3.zero])

/-- C1 evaluation at the failing input of the target-seeking scenario:
one agent at the origin, single target `(10,0,0)`, LINEAR steering
curve, steering weight 1, all other weights 0.  The selection loop
correctly picks the target at curve value 10, but the guard
`!glm::any(glm::equal(steeringTarget, b.position))` on line 212 is TRUE
whenever ANY component matches — here the y and z components are both 0
— so the steering vector stays zero and the stored acceleration is the
zero vector instead of the spec-required unit vector scaled by 10 and
clamped to `MaxAcceleration`. -/
theorem C1_steering_guard_eval :
    (steeringPick { defaultFlocker with SeparationWeight := 0, AlignmentWeight := 0, CohesionWeight := 0, SteeringWeight := 1, SteeringTargets := [⟨10, 0, 0⟩] } sqW
      (boidAt [mkBoid Vec3.zero Vec3.zero] 0)).1 = ⟨10, 0, 0⟩ ∧
    (steeringPick { defaultFlocker with SeparationWeight := 0, AlignmentWeight := 0, CohesionWeight := 0, SteeringWeight := 1, SteeringTargets := [⟨10, 0, 0⟩] } sqW
      (boidAt [mkBoid Vec3.zero Vec3.zero] 0)).2 = 10 ∧
    steeringOf { defaultFlocker with SeparationWeight := 0, AlignmentWeight := 0, CohesionWeight := 0, SteeringWeight := 1, SteeringTargets := [⟨10, 0, 0⟩] } sqW
      [mkBoid Vec3.zero Vec3.zero] 0 = Vec3.zero ∧
    (updateBoid { defaultFlocker with SeparationWeight := 0, AlignmentWeight := 0, CohesionWeight := 0, SteeringWeight := 1, SteeringTargets := [⟨10, 0, 0⟩] } sqW
      (fun _ => Vec3.zero) [mkBoid Vec3.zero Vec3.zero] 0).acceleration = Vec3.zero := by
  have hlen : lengthV sqW (Vec3.sub
      (boidAt [mkBoid Vec3.zero Vec3.zero] 0).position (⟨10, 0, 0⟩ : Vec3)) = 10 := by
    unfold lengthV
    rw [show Vec3.length2 (Vec3.sub
        (boidAt [mkBoid Vec3.zero Vec3.zero] 0).position (⟨10, 0, 0⟩ : Vec3)) = 100 from by
      norm_num [boidAt, mkBoid, Vec3.sub, Vec3.length2, Vec3.dot, Vec3.zero], sqW_hundred]
  have hpick : steeringPick { defaultFlocker with SeparationWeight := 0, AlignmentWeight := 0, CohesionWeight := 0, SteeringWeight := 1, SteeringTargets := [⟨10, 0, 0⟩] } sqW
      (boidAt [mkBoid Vec3.zero Vec3.zero] 0) = (⟨10, 0, 0⟩, 10) := by
    unfold steeringPick
    simp only [show ({ defaultFlocker with SeparationWeight := 0, AlignmentWeight := 0, CohesionWeight := 0, SteeringWeight := 1, SteeringTargets := [⟨10, 0, 0⟩] } : Flocker).SteeringTargets =
        [(⟨10, 0, 0⟩ : Vec3)] from rfl,
      show ({ defaultFlocker with SeparationWeight := 0, AlignmentWeight := 0, CohesionWeight := 0, SteeringWeight := 1, SteeringTargets := [⟨10, 0, 0⟩] } : Flocker).SteeringTargetType =
        DistanceType.LINEAR from rfl,
      List.foldl, transformDistance, hlen]
    norm_num [defaultFlocker]
  have hnb := getNearbyBoids_singleton { defaultFlocker with SeparationWeight := 0, AlignmentWeight := 0, CohesionWeight := 0, SteeringWeight := 1, SteeringTargets := [⟨10, 0, 0⟩] } sqW (mkBoid Vec3.zero Vec3.zero)
  have hsteer : steeringOf { defaultFlocker with SeparationWeight := 0, AlignmentWeight := 0, CohesionWeight := 0, SteeringWeight := 1, SteeringTargets := [⟨10, 0, 0⟩] } sqW
      [mkBoid Vec3.zero Vec3.zero] 0 = Vec3.zero := by
    simp only [steeringOf, hpick]
    rw [if_neg]
    intro hcon
    apply hcon
    right
    left
    norm_num [boidAt, mkBoid, Vec3.zero]
  have hsum : accelSumOf { defaultFlocker with SeparationWeight := 0, AlignmentWeight := 0, CohesionWeight := 0, SteeringWeight := 1, SteeringTargets := [⟨10, 0, 0⟩] } sqW
      (fun _ => Vec3.zero) [mkBoid Vec3.zero Vec3.zero] 0 = Vec3.zero :=
    accelSumOf_no_neighbors _ _ _ _ _ hnb hsteer
  refine ⟨by rw [hpick], by rw [hpick], hsteer, ?_⟩
  show clampLength sqW (accelSumOf _ _ _ _ _) _ = Vec3.zero
  rw [hsum, clampLength_zero sqW _ sqW_zero (by norm_num [defaultFlocker])]
